import Mathlib

/-!
Shallow embedding of the scaling suggestion engine of `sre-agent`
(src/src/suggestion_engines/scaling_engine.py and
src/src/mcp_client/dynatrace_mcp_client.py), with the parts of the data
model (src/src/data_models.py) that those functions read.

Modelling conventions, used throughout:

* A Python dict read through fixed keys is a structure of `Option`-typed
  fields; `none` models an absent key.  Where the *present-with-None*
  case behaves differently from the absent case (because the code calls
  a method on the value, or uses `dict.get` with a non-None default),
  the field is `Option (Option _)`: `none` = key absent, `some none` =
  key present with value `None`, `some (some v)` = value `v`.
* A dict keyed by arbitrary strings is an association list
  `List (String × _)` in insertion order (Python dicts iterate in
  insertion order), looked up with `dictGet`.
* `dict.update` / `{**a, **b}` is a per-field shallow merge where the
  second argument's present fields win.
* A Python exception escaping a function is `Except.error msg`; the
  message text is informational only.
* Configuration values are modelled well-typed (numbers where the code
  expects numbers, and so on), as delivered by the AppConfig YAML.
* IEEE-754 float arithmetic of the availability classifier is modelled
  with exact rationals (`ℚ`); at the decimal thresholds compared (5, 80,
  1, 30) the double computations `n / 24` and `a / t * 100` round to
  values on the same side of each threshold as the exact rationals for
  the magnitudes involved, so the branch taken is the same.
-/

namespace SreAgent

/-- Python `d.get(k)` over a string-keyed dict modelled as an association
list in insertion order: the first binding of the key, if any. -/
def dictGet {α : Type} (m : List (String × α)) (k : String) : Option α :=
  (m.find? (fun p => p.fst == k)).map Prod.snd

/-- Python `str(x)` for an optional string, as f-string interpolation
renders it: `None` prints as "None". -/
def pyStr : Option String → String
  | none => "None"
  | some s => s

/-! ## Configuration model (the keys `_generate_static_suggestion` reads) -/

/-- A `resource_sizing` block of the fallback configuration. -/
structure ResourceSizing where
  cpu_limit : Option String := none
  memory_limit : Option String := none
  cpu_request : Option String := none
  memory_request : Option String := none
deriving DecidableEq

/-- A `scaling_configuration` block of the fallback configuration. -/
structure ScalingConfiguration where
  min_replicas : Option Int := none
  max_replicas : Option Int := none
  target_cpu : Option Int := none
deriving DecidableEq

/-- An `infrastructure` block of the fallback configuration. -/
structure Infrastructure where
  arch : Option String := none
  capacity_type : Option String := none
deriving DecidableEq

/-- One layer block: `fallback_strategies.*`, `environment_defaults.<env>`
or `application_type_patterns.<type>`. -/
structure FallbackBlock where
  resource_sizing : Option ResourceSizing := none
  scaling_configuration : Option ScalingConfiguration := none
  infrastructure : Option Infrastructure := none
deriving DecidableEq

/-- `fallback_strategies`: the two base blocks selected by data
availability (source keys `new_deployment` and `partial_data`). -/
structure FallbackStrategies where
  new_deployment : Option FallbackBlock := none
  partial_data : Option FallbackBlock := none
deriving DecidableEq

/-- One `organization_policies.cost_optimization.<policy>` block. -/
structure CostPolicy where
  capacity_type : Option String := none
  target_cpu : Option Int := none
deriving DecidableEq

/-- `organization_policies`. -/
structure OrgPolicies where
  cost_optimization : List (String × CostPolicy) := []
deriving DecidableEq

/-- An `hpa` block of the legacy `scaling_suggestions` configuration. -/
structure LegacyHpa where
  min_replicas : Option Int := none
  max_replicas : Option Int := none
  cpu_utilization_target : Option Int := none
deriving DecidableEq

/-- A `karpenter` block of the legacy `scaling_suggestions` configuration. -/
structure LegacyKarpenter where
  capacity_type : Option String := none
deriving DecidableEq

/-- `scaling_suggestions.environments.<env>`. -/
structure LegacyEnvConfig where
  aliases : List String := []
  hpa : Option LegacyHpa := none
  karpenter : Option LegacyKarpenter := none
deriving DecidableEq

/-- `scaling_suggestions.applications.<app>.<env>`. -/
structure LegacyAppEnvOverride where
  hpa : Option LegacyHpa := none
  karpenter : Option LegacyKarpenter := none
deriving DecidableEq

/-- `scaling_suggestions`: the legacy full-historical-data configuration. -/
structure ScalingSuggestionsCfg where
  environments : List (String × LegacyEnvConfig) := []
  applications : List (String × List (String × LegacyAppEnvOverride)) := []
deriving DecidableEq

/-- `features` (only the flag the engine reads). -/
structure Features where
  enable_ai_shadow_analyst : Bool := false
deriving DecidableEq

/-- The configuration dict, restricted to the keys the engine reads. -/
structure Config where
  features : Features := {}
  fallback_strategies : Option FallbackStrategies := none
  environment_defaults : List (String × FallbackBlock) := []
  application_type_patterns : List (String × FallbackBlock) := []
  organization_policies : Option OrgPolicies := none
  scaling_suggestions : Option ScalingSuggestionsCfg := none
deriving DecidableEq

/-! ## Request context model -/

/-- `deployment_context['inferred_context']` (the two keys the static
resolver reads). -/
structure InferredContext where
  application_type : Option String := none
  cost_optimization : Option String := none
deriving DecidableEq

/-- The `deployment_context` dict as `_generate_static_suggestion` and
`get_suggestion` read it.  `environment`, `inferred_context` and
`architecture` distinguish present-with-None from absent (see the file
header), because the code treats those two cases differently. -/
structure DeploymentContext where
  environment : Option (Option String) := none
  data_availability : Option String := none
  inferred_context : Option (Option InferredContext) := none
  deployment_name : Option String := none
  architecture : Option (Option String) := none
deriving DecidableEq

/-- The `app_context` dict (only `name` is read by the engine). -/
structure AppContext where
  name : Option String := none
deriving DecidableEq

/-! ## Suggestion output model -/

/-- The `resources` sub-dict of a produced `hpa` suggestion (the layered
path always fills all four values). -/
structure SuggestedResources where
  cpuLimit : String
  memoryLimit : String
  cpuRequest : String
  memoryRequest : String
deriving DecidableEq

/-- The `hpa` dict of a static suggestion.  On the legacy path the
`resources` key is never written (`none` here) and the numeric fields are
whatever the configuration lookup produced, possibly Python `None`. -/
structure SuggestedHpa where
  minReplicas : Option Int
  maxReplicas : Option Int
  targetCPUUtilizationPercentage : Option Int
  scaleTargetRefName : Option String
  resources : Option SuggestedResources
deriving DecidableEq

/-- The `karpenter` dict of a static suggestion (keys
`kubernetes.io/arch` and `karpenter.sh/capacity-type`). -/
structure SuggestedKarpenter where
  arch : Option String
  capacity_type : Option String
deriving DecidableEq

/-- A static suggestion as `_generate_static_suggestion` returns it:
`{"hpa": ..., "karpenter": ...}`. -/
structure StaticSuggestion where
  hpa : SuggestedHpa
  karpenter : SuggestedKarpenter
deriving DecidableEq

/-! ## The static resolver (`_generate_static_suggestion`) -/

/-- `base.update(upd)` on a `resource_sizing` dict: present fields of
`upd` win. -/
def ResourceSizing.updateWith (base upd : ResourceSizing) : ResourceSizing :=
  { cpu_limit := upd.cpu_limit <|> base.cpu_limit
    memory_limit := upd.memory_limit <|> base.memory_limit
    cpu_request := upd.cpu_request <|> base.cpu_request
    memory_request := upd.memory_request <|> base.memory_request }

/-- `base.update(upd)` on a `scaling_configuration` dict. -/
def ScalingConfiguration.updateWith (base upd : ScalingConfiguration) :
    ScalingConfiguration :=
  { min_replicas := upd.min_replicas <|> base.min_replicas
    max_replicas := upd.max_replicas <|> base.max_replicas
    target_cpu := upd.target_cpu <|> base.target_cpu }

/-- `base.update(upd)` on an `infrastructure` dict. -/
def Infrastructure.updateWith (base upd : Infrastructure) : Infrastructure :=
  { arch := upd.arch <|> base.arch
    capacity_type := upd.capacity_type <|> base.capacity_type }

/-- `{**base, **upd}` on a legacy `hpa` dict. -/
def LegacyHpa.updateWith (base upd : LegacyHpa) : LegacyHpa :=
  { min_replicas := upd.min_replicas <|> base.min_replicas
    max_replicas := upd.max_replicas <|> base.max_replicas
    cpu_utilization_target := upd.cpu_utilization_target <|> base.cpu_utilization_target }

/-- `{**base, **upd}` on a legacy `karpenter` dict. -/
def LegacyKarpenter.updateWith (base upd : LegacyKarpenter) : LegacyKarpenter :=
  { capacity_type := upd.capacity_type <|> base.capacity_type }

/-- The legacy full-historical-data path of `_generate_static_suggestion`
(scaling_engine.py lines 76–109): environment lookup by exact lowered key
or lowered alias, first match wins; per-application environment override
merged on top; no `resources` block is produced and no validation runs. -/
def legacyStaticSuggestion (deployment_context : DeploymentContext)
    (repo_name : Option String) (config : Config) (env_name : String) :
    StaticSuggestion :=
  let scaling_configs := config.scaling_suggestions.getD {}
  let base_config :=
    ((scaling_configs.environments.find? (fun p =>
        env_name == p.fst.toLower ||
        (p.snd.aliases.map String.toLower).contains env_name)).map Prod.snd).getD {}
  let app_overrides :=
    (match repo_name with
     | some r => dictGet scaling_configs.applications r
     | none => none).getD []
  let env_override := (dictGet app_overrides env_name).getD {}
  let final_hpa := (base_config.hpa.getD {}).updateWith (env_override.hpa.getD {})
  let final_karpenter :=
    (base_config.karpenter.getD {}).updateWith (env_override.karpenter.getD {})
  { hpa :=
      { minReplicas := final_hpa.min_replicas
        maxReplicas := final_hpa.max_replicas
        targetCPUUtilizationPercentage := final_hpa.cpu_utilization_target
        scaleTargetRefName := deployment_context.deployment_name
        resources := none }
    karpenter :=
      { arch := deployment_context.architecture.getD none
        capacity_type := final_karpenter.capacity_type } }

/-- The four layers' successive updates of the `scaling_configuration`
dict (scaling_engine.py lines 118–152): base fallback, then environment
defaults, then application-type patterns, then the cost policy's
`target_cpu` (the only scaling key a cost policy sets). -/
def layeredScalingConfiguration (config : Config)
    (env_name application_type cost_optimization : String)
    (base_fallback : FallbackBlock) : ScalingConfiguration :=
  let sc1 := base_fallback.scaling_configuration.getD {}
  let sc2 := sc1.updateWith
    (((dictGet config.environment_defaults env_name).getD {}).scaling_configuration.getD {})
  let sc3 := sc2.updateWith
    (((dictGet config.application_type_patterns application_type).getD {}).scaling_configuration.getD {})
  match ((dictGet (config.organization_policies.getD {}).cost_optimization
      cost_optimization).getD {}).target_cpu with
  | some t => { sc3 with target_cpu := some t }
  | none => sc3

/-- The layers' successive updates of the `resource_sizing` dict (lines
118–142): base fallback, environment defaults, application-type patterns
(cost policies never touch resource sizing). -/
def layeredResourceSizing (config : Config)
    (env_name application_type : String) (base_fallback : FallbackBlock) :
    ResourceSizing :=
  let rs1 := base_fallback.resource_sizing.getD {}
  let rs2 := rs1.updateWith
    (((dictGet config.environment_defaults env_name).getD {}).resource_sizing.getD {})
  rs2.updateWith
    (((dictGet config.application_type_patterns application_type).getD {}).resource_sizing.getD {})

/-- The layers' successive updates of the `infrastructure` dict (lines
118–150): base fallback, environment defaults, then the cost policy's
`capacity_type` (application-type patterns never touch infrastructure). -/
def layeredInfrastructure (config : Config)
    (env_name cost_optimization : String) (base_fallback : FallbackBlock) :
    Infrastructure :=
  let infra1 := base_fallback.infrastructure.getD {}
  let infra2 := infra1.updateWith
    (((dictGet config.environment_defaults env_name).getD {}).infrastructure.getD {})
  match ((dictGet (config.organization_policies.getD {}).cost_optimization
      cost_optimization).getD {}).capacity_type with
  | some ct => { infra2 with capacity_type := some ct }
  | none => infra2

/-- The four-layer cascading path of `_generate_static_suggestion`
(scaling_engine.py lines 111–186), with the per-dict update chains
factored into the three functions above (the source updates the three
sub-dicts of `final_config` independently, so the factoring is exact).
`deployment_context['inferred_context']` present with value `None` raises
`AttributeError` at the `inferred_context.get('application_type', ...)`
call.  The final try/except around the Pydantic validation returns the
same dict whether validation succeeds or fails, so it adds nothing
observable here. -/
def layeredStaticSuggestion (deployment_context : DeploymentContext)
    (config : Config) (env_name : String) (base_fallback : FallbackBlock) :
    Except String StaticSuggestion :=
  if deployment_context.inferred_context = some none then
    .error "AttributeError: 'NoneType' object has no attribute 'get'"
  else
    let inferred_context := (deployment_context.inferred_context.getD none).getD {}
    let application_type := inferred_context.application_type.getD "api_service"
    let cost_optimization := inferred_context.cost_optimization.getD "balanced"
    let scaling_config :=
      layeredScalingConfiguration config env_name application_type cost_optimization base_fallback
    let resource_sizing := layeredResourceSizing config env_name application_type base_fallback
    let infrastructure := layeredInfrastructure config env_name cost_optimization base_fallback
    .ok
      { hpa :=
          { minReplicas := some (scaling_config.min_replicas.getD 2)
            maxReplicas := some (scaling_config.max_replicas.getD 6)
            targetCPUUtilizationPercentage := some (scaling_config.target_cpu.getD 70)
            scaleTargetRefName := deployment_context.deployment_name
            resources := some
              { cpuLimit := resource_sizing.cpu_limit.getD "500m"
                memoryLimit := resource_sizing.memory_limit.getD "512Mi"
                cpuRequest := resource_sizing.cpu_request.getD "250m"
                memoryRequest := resource_sizing.memory_request.getD "256Mi" } }
        karpenter :=
          { arch := infrastructure.arch <|>
              (match deployment_context.architecture with
               | none => some "amd64"
               | some a => a)
            capacity_type := some (infrastructure.capacity_type.getD "spot") } }

/-- `_generate_static_suggestion(deployment_context, repo_name, config)`
(scaling_engine.py lines 58–186).  `deployment_context.get('environment',
'').lower()` raises `AttributeError` when the key is present with value
`None`; an absent key yields the empty string.  `data_availability`
defaults to `'full_historical_data'`, which (like any value other than the
two fallback labels) selects the legacy path. -/
def generateStaticSuggestion (deployment_context : DeploymentContext)
    (repo_name : Option String) (config : Config) :
    Except String StaticSuggestion :=
  if deployment_context.environment = some none then
    .error "AttributeError: 'NoneType' object has no attribute 'lower'"
  else
    let env_name :=
      (match deployment_context.environment with
       | some (some s) => s
       | _ => "").toLower
    let data_availability := deployment_context.data_availability.getD "full_historical_data"
    if data_availability = "no_historical_data" then
      layeredStaticSuggestion deployment_context config env_name
        ((config.fallback_strategies.getD {}).new_deployment.getD {})
    else if data_availability = "partial_data" then
      layeredStaticSuggestion deployment_context config env_name
        ((config.fallback_strategies.getD {}).partial_data.getD {})
    else
      .ok (legacyStaticSuggestion deployment_context repo_name config env_name)

/-! ## Submitted-suggestion validation (`ScalingSuggestionContent`)

The submission tool's untrusted argument payload and the Pydantic
validation `ScalingSuggestionContent.model_validate` applies to it
(src/src/data_models.py lines 82–111): every aliased field is required,
and the `max_replicas` field validator rejects `max < min`. -/

/-- Untrusted candidate `resources` block (any key may be missing). -/
structure CandidateResources where
  cpuLimit : Option String := none
  memoryLimit : Option String := none
  cpuRequest : Option String := none
  memoryRequest : Option String := none
deriving DecidableEq

/-- Untrusted candidate `hpa` block. -/
structure CandidateHpa where
  minReplicas : Option Int := none
  maxReplicas : Option Int := none
  targetCPUUtilizationPercentage : Option Int := none
  scaleTargetRefName : Option String := none
  resources : Option CandidateResources := none
deriving DecidableEq

/-- Untrusted candidate `karpenter` block. -/
structure CandidateKarpenter where
  arch : Option String := none
  capacity_type : Option String := none
deriving DecidableEq

/-- Untrusted candidate `ScalingSuggestionContent` payload. -/
structure CandidateContent where
  hpa : Option CandidateHpa := none
  karpenter : Option CandidateKarpenter := none
  rationale : Option String := none
deriving DecidableEq

/-- A validated `ResourceRequirements` (all four strings present). -/
structure ValidResources where
  cpuLimit : String
  memoryLimit : String
  cpuRequest : String
  memoryRequest : String
deriving DecidableEq

/-- A validated `HpaRequirements`. -/
structure ValidHpa where
  minReplicas : Int
  maxReplicas : Int
  targetCPUUtilizationPercentage : Int
  scaleTargetRefName : String
  resources : ValidResources
deriving DecidableEq

/-- A validated `KarpenterRequirements`. -/
structure ValidKarpenter where
  arch : String
  capacity_type : String
deriving DecidableEq

/-- A validated `ScalingSuggestionContent` (what `model_dump(by_alias=True)`
of the validated model carries: hpa, karpenter, optional rationale). -/
structure ValidContent where
  hpa : ValidHpa
  karpenter : ValidKarpenter
  rationale : Option String := none
deriving DecidableEq

/-- `ScalingSuggestionContent.model_validate(args)`: all required fields
present, and `max_replicas ≥ min_replicas` (data_models.py lines 95–100);
a violating payload raises a `ValidationError`, it is never repaired. -/
def validateScalingSuggestionContent (c : CandidateContent) :
    Except String ValidContent :=
  match c.hpa with
  | none => .error "ValidationError: hpa field required"
  | some h =>
    match h.minReplicas, h.maxReplicas, h.targetCPUUtilizationPercentage,
        h.scaleTargetRefName, h.resources with
    | some mn, some mx, some tcpu, some stn, some r =>
      match r.cpuLimit, r.memoryLimit, r.cpuRequest, r.memoryRequest with
      | some cl, some ml, some cr, some mr =>
        if mx < mn then
          .error "ValidationError: max_replicas must be greater than or equal to min_replicas"
        else
          match c.karpenter with
          | none => .error "ValidationError: karpenter field required"
          | some k =>
            match k.arch, k.capacity_type with
            | some a, some ct =>
              .ok { hpa :=
                      { minReplicas := mn, maxReplicas := mx
                        targetCPUUtilizationPercentage := tcpu
                        scaleTargetRefName := stn
                        resources :=
                          { cpuLimit := cl, memoryLimit := ml
                            cpuRequest := cr, memoryRequest := mr } }
                    karpenter := { arch := a, capacity_type := ct }
                    rationale := c.rationale }
            | _, _ => .error "ValidationError: karpenter field required"
      | _, _, _, _ => .error "ValidationError: resources field required"
    | _, _, _, _, _ => .error "ValidationError: hpa field required"

/-! ## The orchestration loop (`get_suggestion`, scaling_engine.py 188–365) -/

/-- The parsed JSON argument payload of one tool call (the result of
`json.loads` on the call's argument string): either a candidate
submission payload or a generic keyword-argument mapping for one of the
telemetry query tools. -/
inductive ToolArgs where
  | submission (c : CandidateContent)
  | query (kwargs : List (String × String))
deriving DecidableEq

/-- `ScalingSuggestionContent.model_validate` applied to a parsed
payload: a payload that is not a mapping of the expected shape fails
validation like any other missing-field payload. -/
def validateArgs : ToolArgs → Except String ValidContent
  | .submission c => validateScalingSuggestionContent c
  | .query _ => .error "ValidationError: input is not a valid ScalingSuggestionContent"

instance {ε α : Type} [DecidableEq ε] [DecidableEq α] : DecidableEq (Except ε α) :=
  fun a b =>
    match a, b with
    | .ok x, .ok y => if h : x = y then .isTrue (by rw [h]) else .isFalse (by simp [h])
    | .error x, .error y => if h : x = y then .isTrue (by rw [h]) else .isFalse (by simp [h])
    | .ok _, .error _ => .isFalse (by simp)
    | .error _, .ok _ => .isFalse (by simp)

/-- One requested tool invocation.  `arguments` is the outcome of
`json.loads(tool_call['function']['arguments'])`: `.error` models a
`JSONDecodeError` (an exception escaping the round). -/
structure ToolCall where
  id : String
  name : String
  arguments : Except String ToolArgs
deriving DecidableEq

/-- One assistant turn returned by `llm_client.call`.  An absent, `None`
or empty `tool_calls` entry is falsy in the code; all three are the empty
list here. -/
structure LlmResponse where
  content : Option String := none
  tool_calls : List ToolCall := []
deriving DecidableEq

/-- A conversation message: the seeded user prompt, an appended assistant
response, or a tool-result message keyed to a call id. -/
inductive Message where
  | user (content : String)
  | assistant (response : LlmResponse)
  | tool (tool_call_id : String) (name : String) (content : String)
deriving DecidableEq

/-- A reasoning client: `llm_client.call(messages, tools)` for the fixed
tool catalog of `get_suggestion` (the `tools` argument is the same
constant list on every call, so it is absorbed into the function).
`.error` models an exception raised by the backend call. -/
def LlmClient : Type := List Message → Except String LlmResponse

/-- A telemetry client as the loop's dispatch sees it: `hasattr(mcp_client,
name)` is `(mcp name).isSome`, and `getattr(mcp_client, name)(**args)` is
the wrapped function, whose `.error` outcome models an exception raised by
the invoked method.  An `.ok` payload is the `json.dumps` of the tool's
return value. -/
def McpClient : Type := String → Option (ToolArgs → Except String String)

/-- What processing the tool calls of one round produced. -/
inductive RoundResult where
  | submitted (v : ValidContent) (msgs : List Message)
  | raised (e : String)
  | next (msgs : List Message)
deriving DecidableEq

/-- The inner `for tool_call in tool_calls` loop of one round
(scaling_engine.py lines 329–356): parse the arguments; a submission call
with valid arguments returns at once (remaining calls are not processed);
a submission call with invalid arguments raises out of the whole AI
workflow; any other call is dispatched by attribute lookup on the
telemetry client, appending a tool-result message (its output, or the
`Tool not found` error text) keyed to the call id, and processing
continues with the next call. -/
def processToolCalls (mcp : McpClient) :
    List ToolCall → List Message → RoundResult
  | [], msgs => .next msgs
  | tc :: rest, msgs =>
    match tc.arguments with
    | .error e => .raised e
    | .ok args =>
      if tc.name = "submit_scaling_suggestion" then
        match validateArgs args with
        | .ok v => .submitted v msgs
        | .error e => .raised e
      else
        match mcp tc.name with
        | some handler =>
          match handler args with
          | .ok out => processToolCalls mcp rest (msgs ++ [.tool tc.id tc.name out])
          | .error e => .raised e
        | none =>
          processToolCalls mcp rest
            (msgs ++ [.tool tc.id tc.name "Error: Tool not found."])

/-- How one run of the orchestration loop ended.  `llmCalls` counts the
calls made to the reasoning client. -/
inductive LoopOutcome where
  | submitted (v : ValidContent) (llmCalls : Nat) (msgs : List Message)
  | noToolCalls (llmCalls : Nat) (msgs : List Message)
  | budgetSpent (llmCalls : Nat) (msgs : List Message)
  | raised (e : String) (llmCalls : Nat)
deriving DecidableEq

/-- The `for _ in range(5)` orchestration loop (scaling_engine.py lines
322–359), parametrised by the remaining round budget `n` (5 at entry) and
the calls made so far.  A response without tool calls breaks out; a round
whose calls all complete without a submission advances to the next round;
an exception anywhere ends the workflow. -/
def runLoop (llm : LlmClient) (mcp : McpClient) :
    Nat → List Message → Nat → LoopOutcome
  | 0, msgs, calls => .budgetSpent calls msgs
  | n + 1, msgs, calls =>
    match llm msgs with
    | .error e => .raised e (calls + 1)
    | .ok response =>
      if response.tool_calls.isEmpty then
        .noToolCalls (calls + 1) msgs
      else
        match processToolCalls mcp response.tool_calls
            (msgs ++ [.assistant response]) with
        | .submitted v m => .submitted v (calls + 1) m
        | .raised e => .raised e (calls + 1)
        | .next m => runLoop llm mcp n m (calls + 1)

/-- `LoopOutcome.llmCalls`: how many reasoning-client calls were made. -/
def LoopOutcome.llmCalls : LoopOutcome → Nat
  | .submitted _ c _ => c
  | .noToolCalls c _ => c
  | .budgetSpent c _ => c
  | .raised _ c => c

/-- Whether the loop ended by spending its whole round budget. -/
def LoopOutcome.isBudgetSpent : LoopOutcome → Bool
  | .budgetSpent _ _ => true
  | _ => false

/-- `_build_initial_prompt(target_entity, app_name, namespace)`
(scaling_engine.py lines 34–56). -/
def buildInitialPrompt (target_entity app_name namespace_ : String) : String :=
  "\nYou are an expert Kubernetes SRE. Your task is to generate an optimal scaling configuration for the service '"
  ++ target_entity ++ "' (app: " ++ app_name ++ ", namespace: " ++ namespace_ ++ ").\n\n"
  ++ "Available tools:\n"
  ++ "1. check_data_availability - Check what historical data exists for this application\n"
  ++ "2. discover_entity - Find the Dynatrace entity ID for the application\n"
  ++ "3. get_historical_metrics - Get 7-day metrics history for trend analysis\n"
  ++ "4. get_trend_analysis - Analyze traffic patterns and scaling trends\n"
  ++ "5. get_performance_metrics - Get current performance metrics\n"
  ++ "6. get_health_events - Get health events and problems\n"
  ++ "7. get_service_level_objectives - Get SLO status\n\n"
  ++ "Strategy:\n"
  ++ "1. Start by checking data availability for " ++ app_name ++ " in " ++ namespace_ ++ "\n"
  ++ "2. If data exists, discover the entity ID and gather historical metrics\n"
  ++ "3. Analyze trends to understand traffic patterns (steady, peak hours, growth, etc.)\n"
  ++ "4. Get current performance and health data\n"
  ++ "5. Based on all information, generate an optimal scaling configuration with detailed rationale\n\n"
  ++ "Always include a comprehensive rationale explaining your reasoning based on the data you gathered.\n"

/-- The names of the eight tools advertised to the reasoning backend in
`get_suggestion`'s `tools` list (scaling_engine.py lines 204–315): seven
telemetry query tools and the submission tool. -/
def advertisedToolNames : List String :=
  ["get_performance_metrics", "get_health_events", "get_service_level_objectives",
   "check_data_availability", "discover_entity", "get_historical_metrics",
   "get_trend_analysis", "submit_scaling_suggestion"]

/-- The attribute names a `DynatraceMCPClient` instance exposes as methods
(src/src/mcp_client/dynatrace_mcp_client.py): the seven advertised query
methods, plus `get_scaling_context` and the private request helpers — all
reachable by the loop's `hasattr`/`getattr` dispatch. -/
def dynatraceMcpMethodNames : List String :=
  ["check_data_availability", "discover_entity", "get_historical_metrics",
   "get_trend_analysis", "get_performance_metrics", "get_health_events",
   "get_service_level_objectives", "get_scaling_context",
   "_json_rpc_request", "_query_entities", "_query_historical_metrics",
   "_query_metrics_batch", "_query_problems", "_query_oom_kills", "_query_slos"]

/-- A telemetry client whose attribute set is exactly
`DynatraceMCPClient`'s method names, with `handlers` giving each method's
behaviour: `hasattr` answers true exactly on those names. -/
def dynatraceShapedMcp (handlers : String → ToolArgs → Except String String) :
    McpClient :=
  fun name => if name ∈ dynatraceMcpMethodNames then some (handlers name) else none

/-- The construction-time environment of the AI path: the outcomes of
`_get_llm_client()` and `_get_mcp_client()` (scaling_engine.py lines
10–30), each of which may raise (missing BYO keys, missing Dynatrace
URL/token). -/
structure AiEnvironment where
  llm_client : Except String LlmClient
  mcp_client : Except String McpClient

/-- The initial conversation seeded by `get_suggestion` (lines 201,
317–319): one user message built from the target entity, the application
name and the namespace (the environment name, `'default'` when absent). -/
def initialMessages (app_context : AppContext)
    (deployment_context : DeploymentContext) : List Message :=
  let target_entity :=
    pyStr app_context.name ++ ":" ++ pyStr (deployment_context.environment.getD none)
  let app_name := pyStr app_context.name
  let namespace_ :=
    match deployment_context.environment with
    | none => "default"
    | some v => pyStr v
  [.user (buildInitialPrompt target_entity app_name namespace_)]

/-- The suggestion carried by the result envelope: the static dict or a
validated LLM submission (their shapes differ: the static dict has no
rationale and may carry nulls). -/
inductive SuggestionPayload where
  | fromStatic (s : StaticSuggestion)
  | fromLlm (v : ValidContent)
deriving DecidableEq

/-- The result envelope `{"suggestion": ..., "suggestion_source": ...}`. -/
structure EngineResult where
  suggestion : SuggestionPayload
  suggestion_source : String
deriving DecidableEq

/-- The `try` block of the AI path (scaling_engine.py lines 198–362):
construct the two clients, seed the conversation, run the loop; `some`
only when a round submitted a validated suggestion, and `none` for every
other ending — construction failure, an exception during a round
(`except Exception` at line 361), a response without tool calls, or an
exhausted budget. -/
def aiWorkflow (env : AiEnvironment) (app_context : AppContext)
    (deployment_context : DeploymentContext) : Option EngineResult :=
  match env.llm_client, env.mcp_client with
  | .ok llm, .ok mcp =>
    match runLoop llm mcp 5 (initialMessages app_context deployment_context) 0 with
    | .submitted v _ _ =>
      some { suggestion := .fromLlm v, suggestion_source := "llm_validated" }
    | _ => none
  | _, _ => none

/-- `get_suggestion(config, app_context, deployment_context)`
(scaling_engine.py lines 188–365).  The static suggestion is computed
first, outside any try block (an exception there propagates to the
caller); the AI path runs only under the feature flag and every failure
of it falls back to the precomputed static suggestion. -/
def getSuggestion (config : Config) (app_context : AppContext)
    (deployment_context : DeploymentContext) (env : AiEnvironment) :
    Except String EngineResult :=
  match generateStaticSuggestion deployment_context app_context.name config with
  | .error e => .error e
  | .ok static_suggestion =>
    if config.features.enable_ai_shadow_analyst then
      match aiWorkflow env app_context deployment_context with
      | some result => .ok result
      | none => .ok { suggestion := .fromStatic static_suggestion
                      suggestion_source := "static" }
    else
      .ok { suggestion := .fromStatic static_suggestion
            suggestion_source := "static" }

/-! ## Data availability (`DynatraceMCPClient`, dynatrace_mcp_client.py)

`check_data_availability` (lines 179–233) discovers an entity, fetches
seven days of historical metrics and classifies completeness.  The
backend is abstracted as the outcomes of the underlying
`_json_rpc_request` calls. -/

/-- One metric's processed statistics as `_query_historical_metrics`
returns them; only `data_points` is read by the classifier.  `none` at
the dict-value position below models a falsy value (`{}`/`None`), which
the defensive `if metric_data and ...` test skips. -/
structure MetricStats where
  data_points : Int
deriving DecidableEq

/-- The telemetry backend behind the classifier: for each entity
selector, the outcome of the entities query (each element is the
entity's `.get("entityId")`, possibly absent) and of the 7-day
historical-metrics query.  `.error` models an exception that
`_query_entities`/`_query_historical_metrics` do **not** swallow (their
own `except` clauses catch only `requests.RequestException`, turning it
into `[]`/`{}` — an `.ok` outcome here). -/
structure TelemetryBackend where
  entities : String → Except String (List (Option String))
  historical_metrics : String → Except String (List (String × Option MetricStats))

/-- The fixed, ordered entity selector strategies of `discover_entity`
(lines 241–246). -/
def entitySelectors (app_name namespace_ : String) : List String :=
  ["type(SERVICE),entityName(\"" ++ app_name ++ "\")",
   "type(SERVICE),tag(\"app:" ++ app_name ++ "\")",
   "type(SERVICE),tag(\"k8s.namespace.name:" ++ namespace_ ++ "\"),entityName.contains(\"" ++ app_name ++ "\")",
   "type(SERVICE),tag(\"k8s.deployment.name:" ++ app_name ++ "\")"]

/-- The selector loop of `discover_entity` (lines 248–254): first
selector with a non-empty entity list wins and its first entity's
`entityId` is returned (even when that id is absent); an exception stops
the loop. -/
def discoverEntityLoop (backend : TelemetryBackend) :
    List String → Except String (Option String)
  | [] => .ok none
  | sel :: rest =>
    match backend.entities sel with
    | .error e => .error e
    | .ok ents =>
      if ents.isEmpty then discoverEntityLoop backend rest
      else .ok (ents.head?.getD none)

/-- `discover_entity(app_name, namespace)` (lines 235–258): its
`except Exception` catch-all turns any exception into `None`. -/
def discoverEntity (backend : TelemetryBackend)
    (app_name namespace_ : String) : Option String :=
  match discoverEntityLoop backend (entitySelectors app_name namespace_) with
  | .ok r => r
  | .error _ => none

/-- `AvailabilityDetails` as returned with a non-`none` classification:
`days_available` is Python `int(days_available)` (truncation; the values
reached are ≥ 1, where truncation and floor agree). -/
structure AvailabilityDetails where
  days_available : Int
  completeness : ℚ
  entity_id : String
deriving DecidableEq

/-- One step of the completeness scan (lines 204–208): every metric
counts toward `total_metrics`; a truthy metric record with
`data_points > 0` counts as available and lowers the running minimum
(`none` = the initial `float('inf')`). -/
def metricCountsStep (acc : Int × Int × Option Int)
    (entry : String × Option MetricStats) : Int × Int × Option Int :=
  match entry.snd with
  | some md =>
    if md.data_points > 0 then
      (acc.1 + 1, acc.2.1 + 1,
        some (match acc.2.2 with
              | none => md.data_points
              | some m => min m md.data_points))
    else (acc.1 + 1, acc.2.1, acc.2.2)
  | none => (acc.1 + 1, acc.2.1, acc.2.2)

/-- The whole completeness scan over the historical-metrics dict:
`(total_metrics, available_metrics, min_data_points)`. -/
def metricCounts (l : List (String × Option MetricStats)) : Int × Int × Option Int :=
  l.foldl metricCountsStep (0, 0, none)

/-- The threshold classification (lines 216–229) as a function of the two
computed floats, in the code's priority order.  `Rat.floor` models
Python's `int()` on the nonnegative values reached. -/
def classifyThresholds (days_available completeness : ℚ) (entity_id : String) :
    String × Option AvailabilityDetails :=
  if days_available ≥ 5 ∧ completeness ≥ 80 then
    ("full_historical_data",
     some { days_available := days_available.floor
            completeness := completeness
            entity_id := entity_id })
  else if days_available ≥ 1 ∧ completeness ≥ 30 then
    ("partial_data",
     some { days_available := days_available.floor
            completeness := completeness
            entity_id := entity_id })
  else
    ("no_historical_data", none)

/-- The body of `check_data_availability`'s `try` block (lines 183–229):
discovery, the historical fetch (`.error` = an exception propagating into
the catch-all), the completeness scan and the threshold classification.
`if not entity_id` is Python falsiness: `None` and the empty string both
short-circuit to no data. -/
def checkDataAvailabilityBody (backend : TelemetryBackend)
    (app_name namespace_ : String) :
    Except String (String × Option AvailabilityDetails) :=
  let entity_id := (discoverEntity backend app_name namespace_).getD ""
  if entity_id = "" then .ok ("no_historical_data", none)
  else
    let entity_selector := "type(SERVICE),entityId(" ++ entity_id ++ ")"
    match backend.historical_metrics entity_selector with
    | .error e => .error e
    | .ok historical_data =>
      if historical_data.isEmpty then .ok ("no_historical_data", none)
      else
        let counts := metricCounts historical_data
        let total_metrics := counts.1
        let available_metrics := counts.2.1
        let min_data_points := counts.2.2
        if available_metrics = 0 then .ok ("no_historical_data", none)
        else
          let completeness : ℚ :=
            if total_metrics > 0 then
              (available_metrics : ℚ) / (total_metrics : ℚ) * 100
            else 0
          let days_available : ℚ :=
            match min_data_points with
            | some m => min 7 (max 1 ((m : ℚ) / 24))
            | none => 0
          .ok (classifyThresholds days_available completeness entity_id)

/-- `check_data_availability(app_name, namespace)` (lines 179–233): the
`except Exception` catch-all degrades every backend failure to
`('no_historical_data', None)`. -/
def checkDataAvailability (backend : TelemetryBackend)
    (app_name namespace_ : String) : String × Option AvailabilityDetails :=
  match checkDataAvailabilityBody backend app_name namespace_ with
  | .ok r => r
  | .error _ => ("no_historical_data", none)

/-! ## Auxiliary predicates and concrete fixtures used by the theorems -/

/-- Whether an `Except` outcome is a normal return (no exception). -/
def exceptOk {α : Type} : Except String α → Bool
  | .ok _ => true
  | .error _ => false

/-- A `scaling_configuration` block that sets neither replica bound. -/
def ScalingConfiguration.keepsDefaultReplicas (sc : ScalingConfiguration) : Bool :=
  sc.min_replicas.isNone && sc.max_replicas.isNone

/-- A layer block that sets neither replica bound. -/
def FallbackBlock.keepsDefaultReplicas (b : FallbackBlock) : Bool :=
  match b.scaling_configuration with
  | none => true
  | some sc => sc.keepsDefaultReplicas

/-- A configuration none of whose cascade layers sets `min_replicas` or
`max_replicas`, so the layered path's hard-coded defaults 2 and 6 apply. -/
def Config.keepsDefaultReplicas (c : Config) : Bool :=
  (match c.fallback_strategies with
   | none => true
   | some fs =>
     (match fs.new_deployment with
      | none => true
      | some b => b.keepsDefaultReplicas) &&
     (match fs.partial_data with
      | none => true
      | some b => b.keepsDefaultReplicas)) &&
  (c.environment_defaults.all fun p => p.snd.keepsDefaultReplicas) &&
  (c.application_type_patterns.all fun p => p.snd.keepsDefaultReplicas)

/-- A reasoning client that, on every conversation, answers without
raising, with at least one tool call, never names the submission tool,
and only requests calls whose arguments parse and whose dispatch on `mcp`
either misses (`Tool not found`) or succeeds — the shape of the
always-non-submitting stub of the round-budget property. -/
def AlwaysNonSubmitting (llm : LlmClient) (mcp : McpClient) : Prop :=
  ∀ msgs, ∃ resp, llm msgs = .ok resp ∧ resp.tool_calls ≠ [] ∧
    ∀ tc ∈ resp.tool_calls, tc.name ≠ "submit_scaling_suggestion" ∧
      ∃ a, tc.arguments = .ok a ∧
        (mcp tc.name = none ∨ ∃ f out, mcp tc.name = some f ∧ f a = .ok out)

/-- The static suggestion the legacy path produces from an empty
configuration and an empty context: every field is Python `None` and the
`resources` key is absent. -/
def emptyLegacySuggestion : StaticSuggestion :=
  { hpa :=
      { minReplicas := none, maxReplicas := none
        targetCPUUtilizationPercentage := none
        scaleTargetRefName := none, resources := none }
    karpenter := { arch := none, capacity_type := none } }

/-- The static suggestion the layered path produces when every layer is
absent: the hard-coded defaults. -/
def defaultLayeredSuggestion : StaticSuggestion :=
  { hpa :=
      { minReplicas := some 2, maxReplicas := some 6
        targetCPUUtilizationPercentage := some 70
        scaleTargetRefName := none
        resources := some
          { cpuLimit := "500m", memoryLimit := "512Mi"
            cpuRequest := "250m", memoryRequest := "256Mi" } }
    karpenter := { arch := some "amd64", capacity_type := some "spot" } }

/-- A configuration whose `new_deployment` fallback sets
`min_replicas = 5 > 2 = max_replicas`. -/
def invertedBoundsConfig : Config :=
  { fallback_strategies := some
      { new_deployment := some
          { scaling_configuration := some
              { min_replicas := some 5, max_replicas := some 2 } } } }

/-- A deployment context classified `no_historical_data` (the cascading
path), with no other fields supplied. -/
def noDataContext : DeploymentContext :=
  { data_availability := some "no_historical_data" }

/-- A configuration with only the AI feature flag enabled. -/
def aiOnConfig : Config :=
  { features := { enable_ai_shadow_analyst := true } }

/-- A reasoning-client stub that always requests one
`get_performance_metrics` call with well-formed arguments. -/
def nonSubmittingLlmStub : LlmClient :=
  fun _ => .ok
    { tool_calls := [{ id := "call-1", name := "get_performance_metrics"
                       arguments := .ok (.query [("entity_id", "E-1")]) }] }

/-- A telemetry-client stub with no attributes at all: every dispatch
takes the `Tool not found` branch. -/
def emptyMcpStub : McpClient := fun _ => none

/-- A schema-valid submission payload. -/
def validCandidate : CandidateContent :=
  { hpa := some
      { minReplicas := some 10, maxReplicas := some 20
        targetCPUUtilizationPercentage := some 80
        scaleTargetRefName := some "test-deploy"
        resources := some
          { cpuLimit := some "1", memoryLimit := some "1Gi"
            cpuRequest := some "500m", memoryRequest := some "512Mi" } }
    karpenter := some { arch := some "amd64", capacity_type := some "spot" }
    rationale := none }

/-- What validating `validCandidate` yields. -/
def validContentValue : ValidContent :=
  { hpa :=
      { minReplicas := 10, maxReplicas := 20
        targetCPUUtilizationPercentage := 80
        scaleTargetRefName := "test-deploy"
        resources :=
          { cpuLimit := "1", memoryLimit := "1Gi"
            cpuRequest := "500m", memoryRequest := "512Mi" } }
    karpenter := { arch := "amd64", capacity_type := "spot" }
    rationale := none }

/-- A payload failing validation: `max_replicas < min_replicas`. -/
def invertedCandidate : CandidateContent :=
  { hpa := some
      { minReplicas := some 20, maxReplicas := some 10
        targetCPUUtilizationPercentage := some 80
        scaleTargetRefName := some "test-deploy"
        resources := some
          { cpuLimit := some "1", memoryLimit := some "1Gi"
            cpuRequest := some "500m", memoryRequest := some "512Mi" } }
    karpenter := some { arch := some "amd64", capacity_type := some "spot" }
    rationale := none }

/-- A reasoning-client stub that submits `validCandidate` on its first
(and every) response. -/
def submittingLlmStub : LlmClient :=
  fun _ => .ok
    { tool_calls := [{ id := "call-1", name := "submit_scaling_suggestion"
                       arguments := .ok (.submission validCandidate) }] }

/-- A reasoning-client stub that submits the invalid `invertedCandidate`. -/
def badSubmittingLlmStub : LlmClient :=
  fun _ => .ok
    { tool_calls := [{ id := "call-1", name := "submit_scaling_suggestion"
                       arguments := .ok (.submission invertedCandidate) }] }

/-- A telemetry backend whose every call raises (network failure). -/
def erroringBackend : TelemetryBackend :=
  { entities := fun _ => .error "ConnectionError"
    historical_metrics := fun _ => .error "ConnectionError" }

/-- A telemetry backend that discovers entity `E-1` at once and reports
five metrics, four of them with at least 120 hourly points each (the
minimum is exactly 120, i.e. five days) and one empty: completeness 80,
`days_available` 5. -/
def boundaryBackend : TelemetryBackend :=
  { entities := fun _ => .ok [some "E-1"]
    historical_metrics := fun _ => .ok
      [("builtin:service.cpu.time", some { data_points := 120 }),
       ("builtin:service.memory.usage", some { data_points := 150 }),
       ("builtin:service.requestCount.rate", some { data_points := 168 }),
       ("builtin:service.response.time", some { data_points := 130 }),
       ("builtin:service.errors.rate", some { data_points := 0 })] }

/-! # Theorems -/

/-- A successful `dictGet` returns the value of a binding of the list. -/
theorem dictGet_eq_some {α : Type} {m : List (String × α)} {k : String} {v : α}
    (h : dictGet m k = some v) : ∃ p ∈ m, p.snd = v := by
  unfold dictGet at h
  cases hf : m.find? (fun p => p.fst == k) with
  | none => rw [hf] at h; simp at h
  | some p =>
    rw [hf] at h
    simp only [Option.map_some', Option.some.injEq] at h
    exact ⟨p, List.mem_of_find?_eq_some hf, h⟩

/-- The label component of the threshold classification, as a nested
conditional. -/
theorem classifyThresholds_fst (d c : ℚ) (eid : String) :
    (classifyThresholds d c eid).fst =
      if d ≥ 5 ∧ c ≥ 80 then "full_historical_data"
      else if d ≥ 1 ∧ c ≥ 30 then "partial_data"
      else "no_historical_data" := by
  unfold classifyThresholds
  split_ifs <;> rfl

/-- C4: `check_data_availability` classifies with thresholds
`days_available ≥ 5 ∧ completeness ≥ 80` → full, else
`days_available ≥ 1 ∧ completeness ≥ 30` → partial, else none, in that
priority order; `completeness = available/total·100` and `days_available
= min(7, max(1, min_data_points/24))`; at the boundaries, `(5, 80)` is
full, `(4.99, 80)` is partial, and `(1, 29.9)` is none. -/
theorem c4_data_availability_classification :
    (∀ d c : ℚ, ∀ eid : String,
       (classifyThresholds d c eid).fst = "full_historical_data" ↔ d ≥ 5 ∧ c ≥ 80) ∧
    (∀ d c : ℚ, ∀ eid : String,
       (classifyThresholds d c eid).fst = "partial_data" ↔
         ¬(d ≥ 5 ∧ c ≥ 80) ∧ (d ≥ 1 ∧ c ≥ 30)) ∧
    (∀ d c : ℚ, ∀ eid : String,
       (classifyThresholds d c eid).fst = "no_historical_data" ↔
         ¬(d ≥ 5 ∧ c ≥ 80) ∧ ¬(d ≥ 1 ∧ c ≥ 30)) ∧
    (classifyThresholds 5 80 "E-1").fst = "full_historical_data" ∧
    (classifyThresholds (499/100) 80 "E-1").fst = "partial_data" ∧
    (classifyThresholds 1 (299/10) "E-1").fst = "no_historical_data" ∧
    (∀ backend : TelemetryBackend, ∀ app ns eid : String,
       ∀ hist : List (String × Option MetricStats), ∀ t a m : Int,
       discoverEntity backend app ns = some eid → eid ≠ "" →
       backend.historical_metrics ("type(SERVICE),entityId(" ++ eid ++ ")") = .ok hist →
       hist ≠ [] → metricCounts hist = (t, a, some m) → a ≠ 0 → 0 < t →
       checkDataAvailability backend app ns =
         classifyThresholds (min 7 (max 1 ((m : ℚ) / 24))) ((a : ℚ) / (t : ℚ) * 100) eid) := by
  refine ⟨?_, ?_, ?_, ?_, ?_, ?_, ?_⟩
  · intro d c eid
    rw [classifyThresholds_fst]
    split_ifs with h1 h2
    · exact iff_of_true rfl h1
    · exact iff_of_false (by decide) h1
    · exact iff_of_false (by decide) h1
  · intro d c eid
    rw [classifyThresholds_fst]
    split_ifs with h1 h2
    · exact iff_of_false (by decide) (fun h => h.1 h1)
    · exact iff_of_true rfl ⟨h1, h2⟩
    · exact iff_of_false (by decide) (fun h => h2 h.2)
  · intro d c eid
    rw [classifyThresholds_fst]
    split_ifs with h1 h2
    · exact iff_of_false (by decide) (fun h => h.1 h1)
    · exact iff_of_false (by decide) (fun h => h.2 h2)
    · exact iff_of_true rfl ⟨h1, h2⟩
  · rw [classifyThresholds_fst, if_pos ⟨by norm_num, by norm_num⟩]
  · rw [classifyThresholds_fst, if_neg (fun h => by norm_num at h),
      if_pos ⟨by norm_num, by norm_num⟩]
  · rw [classifyThresholds_fst, if_neg (fun h => by norm_num at h),
      if_neg (fun h => by norm_num at h)]
  · intro backend app ns eid hist t a m hdisc hne hhist hnil hcounts ha ht
    obtain ⟨x, xs, rfl⟩ := List.exists_cons_of_ne_nil hnil
    unfold checkDataAvailability checkDataAvailabilityBody
    rw [hdisc]
    simp only [Option.getD_some]
    rw [if_neg hne, hhist]
    simp only [List.isEmpty_cons, Bool.false_eq_true, if_false]
    rw [hcounts]
    simp only []
    rw [if_neg ha, if_pos ht]

/-- C7: any backend failure during availability classification — an
exception in the discovery loop, in the historical-metrics fetch, or
anywhere in the body — degrades the result to
`('no_historical_data', None)` instead of propagating. -/
theorem c7_backend_failure_degrades :
    (∀ backend : TelemetryBackend, ∀ app ns e : String,
       checkDataAvailabilityBody backend app ns = .error e →
       checkDataAvailability backend app ns = ("no_historical_data", none)) ∧
    (∀ backend : TelemetryBackend, ∀ app ns e : String,
       discoverEntityLoop backend (entitySelectors app ns) = .error e →
       checkDataAvailability backend app ns = ("no_historical_data", none)) ∧
    (∀ backend : TelemetryBackend, ∀ app ns eid e : String,
       discoverEntity backend app ns = some eid → eid ≠ "" →
       backend.historical_metrics ("type(SERVICE),entityId(" ++ eid ++ ")") = .error e →
       checkDataAvailability backend app ns = ("no_historical_data", none)) := by
  refine ⟨?_, ?_, ?_⟩
  · intro backend app ns e h
    unfold checkDataAvailability
    rw [h]
  · intro backend app ns e h
    have hd : discoverEntity backend app ns = none := by
      unfold discoverEntity
      rw [h]
    unfold checkDataAvailability checkDataAvailabilityBody
    rw [hd]
    simp
  · intro backend app ns eid e hdisc hne hh
    unfold checkDataAvailability checkDataAvailabilityBody
    rw [hdisc]
    simp only [Option.getD_some]
    rw [if_neg hne, hh]

/-- C7 at a concrete input: a backend whose entity query raises a
connection error classifies as no data. -/
theorem c7_backend_failure_degrades_witness :
    checkDataAvailability erroringBackend "payment-worker" "prod" =
      ("no_historical_data", none) :=
  c7_backend_failure_degrades.2.1 erroringBackend "payment-worker" "prod"
    "ConnectionError" rfl

/-- C4 at a concrete input: four of five metrics available with a
minimum of 120 hourly points classifies as full historical data with
completeness 80 and five days available. -/
theorem c4_data_availability_classification_witness :
    checkDataAvailability boundaryBackend "payment-worker" "prod" =
      ("full_historical_data",
       some { days_available := 5, completeness := 80, entity_id := "E-1" }) := by
  have h := c4_data_availability_classification.2.2.2.2.2.2 boundaryBackend
    "payment-worker" "prod" "E-1"
    [("builtin:service.cpu.time", some { data_points := 120 }),
     ("builtin:service.memory.usage", some { data_points := 150 }),
     ("builtin:service.requestCount.rate", some { data_points := 168 }),
     ("builtin:service.response.time", some { data_points := 130 }),
     ("builtin:service.errors.rate", some { data_points := 0 })]
    5 4 120 rfl (by decide) rfl (by decide) (by decide) (by decide) (by decide)
  rw [h]
  have hdays : min (7 : ℚ) (max 1 (((120 : Int) : ℚ) / 24)) = 5 := by norm_num
  have hcomp : (((4 : Int) : ℚ) / ((5 : Int) : ℚ) * 100) = 80 := by norm_num
  rw [hdays, hcomp]
  unfold classifyThresholds
  rw [if_pos ⟨le_refl _, le_refl _⟩]
  norm_num
  decide

/-- `generateStaticSuggestion` with its let-bindings unfolded. -/
theorem generateStaticSuggestion_eq (dc : DeploymentContext)
    (repo : Option String) (config : Config) :
    generateStaticSuggestion dc repo config =
      if dc.environment = some none then
        .error "AttributeError: 'NoneType' object has no attribute 'lower'"
      else if dc.data_availability.getD "full_historical_data" = "no_historical_data" then
        layeredStaticSuggestion dc config
          ((match dc.environment with | some (some s) => s | _ => "").toLower)
          ((config.fallback_strategies.getD {}).new_deployment.getD {})
      else if dc.data_availability.getD "full_historical_data" = "partial_data" then
        layeredStaticSuggestion dc config
          ((match dc.environment with | some (some s) => s | _ => "").toLower)
          ((config.fallback_strategies.getD {}).partial_data.getD {})
      else
        .ok (legacyStaticSuggestion dc repo config
          ((match dc.environment with | some (some s) => s | _ => "").toLower)) := rfl

/-- On a `no_historical_data` context the resolver takes the cascading
path over the `new_deployment` base block. -/
theorem generateStaticSuggestion_noData (dc : DeploymentContext)
    (repo : Option String) (config : Config)
    (henv : dc.environment ≠ some none)
    (h : dc.data_availability = some "no_historical_data") :
    generateStaticSuggestion dc repo config =
      layeredStaticSuggestion dc config
        ((match dc.environment with | some (some s) => s | _ => "").toLower)
        ((config.fallback_strategies.getD {}).new_deployment.getD {}) := by
  rw [generateStaticSuggestion_eq, if_neg henv, h]
  rfl

/-- On a `partial_data` context the resolver takes the cascading path
over the `partial_data` base block. -/
theorem generateStaticSuggestion_partialData (dc : DeploymentContext)
    (repo : Option String) (config : Config)
    (henv : dc.environment ≠ some none)
    (h : dc.data_availability = some "partial_data") :
    generateStaticSuggestion dc repo config =
      layeredStaticSuggestion dc config
        ((match dc.environment with | some (some s) => s | _ => "").toLower)
        ((config.fallback_strategies.getD {}).partial_data.getD {}) := by
  rw [generateStaticSuggestion_eq, if_neg henv, h]
  rfl

/-- On any other availability value the resolver takes the legacy path. -/
theorem generateStaticSuggestion_legacy (dc : DeploymentContext)
    (repo : Option String) (config : Config)
    (henv : dc.environment ≠ some none)
    (h1 : dc.data_availability.getD "full_historical_data" ≠ "no_historical_data")
    (h2 : dc.data_availability.getD "full_historical_data" ≠ "partial_data") :
    generateStaticSuggestion dc repo config =
      .ok (legacyStaticSuggestion dc repo config
        ((match dc.environment with | some (some s) => s | _ => "").toLower)) := by
  rw [generateStaticSuggestion_eq, if_neg henv, if_neg h1, if_neg h2]

/-- The `min_replicas` key after the four layers' updates: the last layer
that defines it wins (application type, then environment, then base; cost
policies never set it). -/
theorem layeredScalingConfiguration_min_replicas (config : Config)
    (env_name application_type cost_optimization : String)
    (base : FallbackBlock) :
    (layeredScalingConfiguration config env_name application_type
        cost_optimization base).min_replicas =
      ((((dictGet config.application_type_patterns application_type).getD {}).scaling_configuration.getD {}).min_replicas <|>
       (((((dictGet config.environment_defaults env_name).getD {}).scaling_configuration.getD {}).min_replicas) <|>
        ((base.scaling_configuration.getD {}).min_replicas))) := by
  unfold layeredScalingConfiguration
  cases ((dictGet (config.organization_policies.getD {}).cost_optimization
      cost_optimization).getD {}).target_cpu <;> rfl

/-- The `max_replicas` key after the four layers' updates. -/
theorem layeredScalingConfiguration_max_replicas (config : Config)
    (env_name application_type cost_optimization : String)
    (base : FallbackBlock) :
    (layeredScalingConfiguration config env_name application_type
        cost_optimization base).max_replicas =
      ((((dictGet config.application_type_patterns application_type).getD {}).scaling_configuration.getD {}).max_replicas <|>
       (((((dictGet config.environment_defaults env_name).getD {}).scaling_configuration.getD {}).max_replicas) <|>
        ((base.scaling_configuration.getD {}).max_replicas))) := by
  unfold layeredScalingConfiguration
  cases ((dictGet (config.organization_policies.getD {}).cost_optimization
      cost_optimization).getD {}).target_cpu <;> rfl

/-- A block that keeps the default replica bounds contributes `none` for
both bounds. -/
theorem keepsDefaultReplicas_block {b : FallbackBlock}
    (h : b.keepsDefaultReplicas = true) :
    (b.scaling_configuration.getD {}).min_replicas = none ∧
    (b.scaling_configuration.getD {}).max_replicas = none := by
  unfold FallbackBlock.keepsDefaultReplicas at h
  cases hsc : b.scaling_configuration with
  | none => exact ⟨rfl, rfl⟩
  | some sc =>
    rw [hsc] at h
    unfold ScalingConfiguration.keepsDefaultReplicas at h
    simp only [Bool.and_eq_true, Option.isNone_iff_eq_none] at h
    simpa using h

/-- In a configuration keeping default replica bounds, so does the
`new_deployment` base block. -/
theorem keepsDefaultReplicas_new_deployment {config : Config}
    (hk : config.keepsDefaultReplicas = true) :
    ((config.fallback_strategies.getD {}).new_deployment.getD {}).keepsDefaultReplicas = true := by
  unfold Config.keepsDefaultReplicas at hk
  simp only [Bool.and_eq_true] at hk
  obtain ⟨⟨h1, -⟩, -⟩ := hk
  cases hfs : config.fallback_strategies with
  | none => rfl
  | some fs =>
    rw [hfs] at h1
    simp only [Bool.and_eq_true] at h1
    simp only [Option.getD_some]
    cases hnd : fs.new_deployment with
    | none => rfl
    | some b =>
      rw [hnd] at h1
      simpa using h1.1

/-- In a configuration keeping default replica bounds, so does the
`partial_data` base block. -/
theorem keepsDefaultReplicas_partial_data {config : Config}
    (hk : config.keepsDefaultReplicas = true) :
    ((config.fallback_strategies.getD {}).partial_data.getD {}).keepsDefaultReplicas = true := by
  unfold Config.keepsDefaultReplicas at hk
  simp only [Bool.and_eq_true] at hk
  obtain ⟨⟨h1, -⟩, -⟩ := hk
  cases hfs : config.fallback_strategies with
  | none => rfl
  | some fs =>
    rw [hfs] at h1
    simp only [Bool.and_eq_true] at h1
    simp only [Option.getD_some]
    cases hnd : fs.partial_data with
    | none => rfl
    | some b =>
      rw [hnd] at h1
      simpa using h1.2

/-- In a configuration keeping default replica bounds, every
environment-defaults block looked up keeps them. -/
theorem keepsDefaultReplicas_env {config : Config}
    (hk : config.keepsDefaultReplicas = true) (k : String) :
    ((dictGet config.environment_defaults k).getD {}).keepsDefaultReplicas = true := by
  unfold Config.keepsDefaultReplicas at hk
  simp only [Bool.and_eq_true] at hk
  obtain ⟨⟨-, h2⟩, -⟩ := hk
  cases hg : dictGet config.environment_defaults k with
  | none => rfl
  | some b =>
    obtain ⟨p, hmem, hsnd⟩ := dictGet_eq_some hg
    rw [List.all_eq_true] at h2
    simpa [hsnd] using h2 p hmem

/-- In a configuration keeping default replica bounds, every
application-type-patterns block looked up keeps them. -/
theorem keepsDefaultReplicas_appty {config : Config}
    (hk : config.keepsDefaultReplicas = true) (k : String) :
    ((dictGet config.application_type_patterns k).getD {}).keepsDefaultReplicas = true := by
  unfold Config.keepsDefaultReplicas at hk
  simp only [Bool.and_eq_true] at hk
  obtain ⟨-, h3⟩ := hk
  cases hg : dictGet config.application_type_patterns k with
  | none => rfl
  | some b =>
    obtain ⟨p, hmem, hsnd⟩ := dictGet_eq_some hg
    rw [List.all_eq_true] at h3
    simpa [hsnd] using h3 p hmem

/-- When no layer of the configuration sets replica bounds, the merged
scaling configuration carries none and the hard-coded defaults apply. -/
theorem layeredScalingConfiguration_default {config : Config}
    (hk : config.keepsDefaultReplicas = true)
    (env_name application_type cost_optimization : String)
    {base : FallbackBlock} (hbase : base.keepsDefaultReplicas = true) :
    (layeredScalingConfiguration config env_name application_type
        cost_optimization base).min_replicas = none ∧
    (layeredScalingConfiguration config env_name application_type
        cost_optimization base).max_replicas = none := by
  have happ := keepsDefaultReplicas_block (keepsDefaultReplicas_appty hk application_type)
  have henv := keepsDefaultReplicas_block (keepsDefaultReplicas_env hk env_name)
  have hb := keepsDefaultReplicas_block hbase
  constructor
  · rw [layeredScalingConfiguration_min_replicas, happ.1, henv.1, hb.1]
    rfl
  · rw [layeredScalingConfiguration_max_replicas, happ.2, henv.2, hb.2]
    rfl

/-- What the layered path always yields: a suggestion whose hpa block is
fully populated (replica bounds defaulted from the merged layers) with a
complete resources block, and a karpenter block with a capacity type. -/
theorem layeredStaticSuggestion_ok (dc : DeploymentContext) (config : Config)
    (env_name : String) (base : FallbackBlock)
    (hinf : dc.inferred_context ≠ some none) :
    ∃ s, layeredStaticSuggestion dc config env_name base = .ok s ∧
      s.hpa.minReplicas = some ((layeredScalingConfiguration config env_name
          (((dc.inferred_context.getD none).getD {}).application_type.getD "api_service")
          (((dc.inferred_context.getD none).getD {}).cost_optimization.getD "balanced")
          base).min_replicas.getD 2) ∧
      s.hpa.maxReplicas = some ((layeredScalingConfiguration config env_name
          (((dc.inferred_context.getD none).getD {}).application_type.getD "api_service")
          (((dc.inferred_context.getD none).getD {}).cost_optimization.getD "balanced")
          base).max_replicas.getD 6) ∧
      s.hpa.targetCPUUtilizationPercentage.isSome = true ∧
      s.hpa.resources.isSome = true ∧
      s.karpenter.capacity_type.isSome = true := by
  unfold layeredStaticSuggestion
  rw [if_neg hinf]
  exact ⟨_, rfl, rfl, rfl, rfl, rfl, rfl⟩

/-- C1 (counterexample): the resolver can return `minReplicas = 5 >
2 = maxReplicas` (cascading path, a base layer with inverted bounds —
validation failure does not block the return), and on the legacy path it
returns an hpa block with no `resources` key at all. -/
theorem c1_static_resolver_counterexample :
    (generateStaticSuggestion noDataContext (some "payment-worker")
        invertedBoundsConfig).toOption.map
        (fun s => (s.hpa.minReplicas, s.hpa.maxReplicas)) =
      some (some 5, some 2) ∧
    ¬ ((5 : Int) ≤ 2) ∧
    (generateStaticSuggestion {} (some "payment-worker") {}).toOption.map
        (fun s => s.hpa.resources) = some none := by
  refine ⟨by decide, by decide, by decide⟩

/-- C1 (amended): for every configuration and context without
present-as-None fields, the resolver returns a non-null suggestion; on
the cascading path the hpa block (replica bounds, target utilization, a
complete resources block) and the karpenter capacity type are always
populated, and `minReplicas = 2 ≤ 6 = maxReplicas` whenever no
configuration layer sets replica bounds; configured bounds are passed
through without a `min ≤ max` check, and the legacy path omits the
resources block. -/
theorem c1_static_resolver_amended (dc : DeploymentContext)
    (repo : Option String) (config : Config)
    (henv : dc.environment ≠ some none)
    (hinf : dc.inferred_context ≠ some none)
    (hda : dc.data_availability = some "no_historical_data" ∨
           dc.data_availability = some "partial_data") :
    ∃ s, generateStaticSuggestion dc repo config = .ok s ∧
      s.hpa.minReplicas.isSome = true ∧
      s.hpa.maxReplicas.isSome = true ∧
      s.hpa.targetCPUUtilizationPercentage.isSome = true ∧
      s.hpa.resources.isSome = true ∧
      s.karpenter.capacity_type.isSome = true ∧
      (config.keepsDefaultReplicas = true →
        s.hpa.minReplicas = some 2 ∧ s.hpa.maxReplicas = some 6) := by
  have main : ∀ base : FallbackBlock,
      (config.keepsDefaultReplicas = true → base.keepsDefaultReplicas = true) →
      generateStaticSuggestion dc repo config =
        layeredStaticSuggestion dc config
          ((match dc.environment with | some (some s) => s | _ => "").toLower) base →
      ∃ s, generateStaticSuggestion dc repo config = .ok s ∧
        s.hpa.minReplicas.isSome = true ∧
        s.hpa.maxReplicas.isSome = true ∧
        s.hpa.targetCPUUtilizationPercentage.isSome = true ∧
        s.hpa.resources.isSome = true ∧
        s.karpenter.capacity_type.isSome = true ∧
        (config.keepsDefaultReplicas = true →
          s.hpa.minReplicas = some 2 ∧ s.hpa.maxReplicas = some 6) := by
    intro base hbase hr
    obtain ⟨s, hs, hmin, hmax, htc, hres, hct⟩ :=
      layeredStaticSuggestion_ok dc config
        ((match dc.environment with | some (some s) => s | _ => "").toLower) base hinf
    refine ⟨s, by rw [hr, hs], ?_, ?_, htc, hres, hct, ?_⟩
    · rw [hmin]; rfl
    · rw [hmax]; rfl
    · intro hk
      obtain ⟨hm, hM⟩ := layeredScalingConfiguration_default hk
        ((match dc.environment with | some (some s) => s | _ => "").toLower)
        (((dc.inferred_context.getD none).getD {}).application_type.getD "api_service")
        (((dc.inferred_context.getD none).getD {}).cost_optimization.getD "balanced")
        (hbase hk)
      constructor
      · rw [hmin, hm]; rfl
      · rw [hmax, hM]; rfl
  rcases hda with h | h
  · exact main _ (fun hk => keepsDefaultReplicas_new_deployment hk)
      (generateStaticSuggestion_noData dc repo config henv h)
  · exact main _ (fun hk => keepsDefaultReplicas_partial_data hk)
      (generateStaticSuggestion_partialData dc repo config henv h)

/-- C1 (amended) at a concrete input: an empty configuration on the
cascading path yields the fully-populated default suggestion. -/
theorem c1_static_resolver_amended_witness :
    ∃ s, generateStaticSuggestion noDataContext (some "payment-worker") {} = .ok s ∧
      s.hpa.minReplicas.isSome = true ∧
      s.hpa.maxReplicas.isSome = true ∧
      s.hpa.targetCPUUtilizationPercentage.isSome = true ∧
      s.hpa.resources.isSome = true ∧
      s.karpenter.capacity_type.isSome = true ∧
      (({} : Config).keepsDefaultReplicas = true →
        s.hpa.minReplicas = some 2 ∧ s.hpa.maxReplicas = some 6) :=
  c1_static_resolver_amended noDataContext (some "payment-worker") {}
    (by decide) (by decide) (Or.inl rfl)

/-- C5 (counterexample): a context whose `environment` key is present
with value `None` makes the resolver raise `AttributeError` instead of
returning a suggestion. -/
theorem c5_totality_counterexample :
    generateStaticSuggestion { environment := some none }
        (some "payment-worker") {} =
      .error "AttributeError: 'NoneType' object has no attribute 'lower'" := rfl

/-- C5 (amended): the resolver is total — returns a suggestion, never an
exception — for every configuration, application name and context whose
`environment` and `inferred_context` keys are not present with value
`None` (absent keys are fine); a present-as-None value for either raises
`AttributeError`. -/
theorem c5_static_resolver_total_amended (dc : DeploymentContext)
    (repo : Option String) (config : Config)
    (henv : dc.environment ≠ some none)
    (hinf : dc.inferred_context ≠ some none) :
    exceptOk (generateStaticSuggestion dc repo config) = true := by
  rw [generateStaticSuggestion_eq, if_neg henv]
  by_cases h1 : dc.data_availability.getD "full_historical_data" = "no_historical_data"
  · rw [if_pos h1]
    obtain ⟨s, hs, -⟩ := layeredStaticSuggestion_ok dc config
      ((match dc.environment with | some (some s) => s | _ => "").toLower)
      ((config.fallback_strategies.getD {}).new_deployment.getD {}) hinf
    rw [hs]; rfl
  · rw [if_neg h1]
    by_cases h2 : dc.data_availability.getD "full_historical_data" = "partial_data"
    · rw [if_pos h2]
      obtain ⟨s, hs, -⟩ := layeredStaticSuggestion_ok dc config
        ((match dc.environment with | some (some s) => s | _ => "").toLower)
        ((config.fallback_strategies.getD {}).partial_data.getD {}) hinf
      rw [hs]; rfl
    · rw [if_neg h2]; rfl

/-- C5 (amended) at a concrete input: with a string environment and no
inferred context the resolver returns normally. -/
theorem c5_static_resolver_total_amended_witness :
    exceptOk (generateStaticSuggestion
      { environment := some (some "prod"), data_availability := some "partial_data" }
      (some "payment-worker") {}) = true :=
  c5_static_resolver_total_amended
    { environment := some (some "prod"), data_availability := some "partial_data" }
    (some "payment-worker") {} (by decide) (by decide)

/-! ### Orchestration-loop lemmas -/

/-- A call whose argument string fails to parse raises out of the round. -/
theorem processToolCalls_cons_parse_error (mcp : McpClient) (cid nameQ e : String)
    (rest : List ToolCall) (msgs : List Message) :
    processToolCalls mcp ({ id := cid, name := nameQ, arguments := .error e } :: rest) msgs =
      .raised e := by
  simp only [processToolCalls]

/-- A submission call with schema-valid arguments returns at once,
leaving the conversation untouched and the remaining calls unprocessed. -/
theorem processToolCalls_cons_submit_ok (mcp : McpClient) (cid : String)
    (rest : List ToolCall) (msgs : List Message) (a : ToolArgs) (v : ValidContent)
    (hv : validateArgs a = .ok v) :
    processToolCalls mcp
        ({ id := cid, name := "submit_scaling_suggestion", arguments := .ok a } :: rest) msgs =
      .submitted v msgs := by
  simp only [processToolCalls, if_true, hv]

/-- A submission call with invalid arguments raises the validation
error out of the round. -/
theorem processToolCalls_cons_submit_err (mcp : McpClient) (cid : String)
    (rest : List ToolCall) (msgs : List Message) (a : ToolArgs) (e : String)
    (hv : validateArgs a = .error e) :
    processToolCalls mcp
        ({ id := cid, name := "submit_scaling_suggestion", arguments := .ok a } :: rest) msgs =
      .raised e := by
  simp only [processToolCalls, if_true, hv]

/-- A non-submission call that is an attribute of the telemetry client is
invoked, its output appended as a tool message, and processing continues. -/
theorem processToolCalls_cons_found (mcp : McpClient) (cid nameQ : String)
    (rest : List ToolCall) (msgs : List Message) (a : ToolArgs)
    (f : ToolArgs → Except String String) (out : String)
    (hname : nameQ ≠ "submit_scaling_suggestion")
    (hf : mcp nameQ = some f) (hout : f a = .ok out) :
    processToolCalls mcp ({ id := cid, name := nameQ, arguments := .ok a } :: rest) msgs =
      processToolCalls mcp rest (msgs ++ [.tool cid nameQ out]) := by
  simp only [processToolCalls, if_neg hname, hf, hout]

/-- An exception raised by the invoked telemetry method raises out of
the round. -/
theorem processToolCalls_cons_handler_raises (mcp : McpClient) (cid nameQ : String)
    (rest : List ToolCall) (msgs : List Message) (a : ToolArgs)
    (f : ToolArgs → Except String String) (e : String)
    (hname : nameQ ≠ "submit_scaling_suggestion")
    (hf : mcp nameQ = some f) (hout : f a = .error e) :
    processToolCalls mcp ({ id := cid, name := nameQ, arguments := .ok a } :: rest) msgs =
      .raised e := by
  simp only [processToolCalls, if_neg hname, hf, hout]

/-- A non-submission call naming no attribute of the telemetry client
appends the `Tool not found` error message and processing continues. -/
theorem processToolCalls_cons_notfound (mcp : McpClient) (cid nameQ : String)
    (rest : List ToolCall) (msgs : List Message) (a : ToolArgs)
    (hname : nameQ ≠ "submit_scaling_suggestion")
    (hf : mcp nameQ = none) :
    processToolCalls mcp ({ id := cid, name := nameQ, arguments := .ok a } :: rest) msgs =
      processToolCalls mcp rest
        (msgs ++ [.tool cid nameQ "Error: Tool not found."]) := by
  simp only [processToolCalls, if_neg hname, hf]

/-- A round whose calls all parse, never submit and all dispatch without
raising completes with some extended conversation. -/
theorem processToolCalls_completes (mcp : McpClient) :
    ∀ l : List ToolCall,
      (∀ tc ∈ l, tc.name ≠ "submit_scaling_suggestion" ∧
        ∃ a, tc.arguments = .ok a ∧
          (mcp tc.name = none ∨ ∃ f out, mcp tc.name = some f ∧ f a = .ok out)) →
      ∀ msgs, ∃ m, processToolCalls mcp l msgs = .next m := by
  intro l
  induction l with
  | nil => exact fun _ msgs => ⟨msgs, rfl⟩
  | cons tc rest ih =>
    intro h msgs
    have hrest := fun tc' ht => h tc' (List.mem_cons_of_mem _ ht)
    obtain ⟨cid, nameQ, args⟩ := tc
    obtain ⟨hname, a, hargs, hdisp⟩ := h _ (List.mem_cons_self _ _)
    dsimp only at hname hargs hdisp
    subst hargs
    rcases hdisp with hf | ⟨f, out, hf, hout⟩
    · obtain ⟨m, hm⟩ := ih hrest (msgs ++ [.tool cid nameQ "Error: Tool not found."])
      exact ⟨m, by
        rw [processToolCalls_cons_notfound mcp cid nameQ rest msgs a hname hf]
        exact hm⟩
    · obtain ⟨m, hm⟩ := ih hrest (msgs ++ [.tool cid nameQ out])
      exact ⟨m, by
        rw [processToolCalls_cons_found mcp cid nameQ rest msgs a f out hname hf hout]
        exact hm⟩

/-- A round whose calls all miss the telemetry client's attributes
appends exactly one `Tool not found` message per call, in order. -/
theorem processToolCalls_all_notfound (mcp : McpClient) :
    ∀ l : List ToolCall,
      (∀ tc ∈ l, tc.name ≠ "submit_scaling_suggestion" ∧
        (∃ a, tc.arguments = .ok a) ∧ mcp tc.name = none) →
      ∀ msgs, processToolCalls mcp l msgs =
        .next (msgs ++ l.map (fun tc => .tool tc.id tc.name "Error: Tool not found.")) := by
  intro l
  induction l with
  | nil => intro _ msgs; simp [processToolCalls]
  | cons tc rest ih =>
    intro h msgs
    have hrest := fun tc' ht => h tc' (List.mem_cons_of_mem _ ht)
    obtain ⟨cid, nameQ, args⟩ := tc
    obtain ⟨hname, ⟨a, hargs⟩, hf⟩ := h _ (List.mem_cons_self _ _)
    dsimp only at hname hargs hf
    subst hargs
    rw [processToolCalls_cons_notfound mcp cid nameQ rest msgs a hname hf, ih hrest]
    simp

/-- A round where the reasoning call raises ends the loop. -/
theorem runLoop_succ_llm_error (llm : LlmClient) (mcp : McpClient)
    (n : Nat) (msgs : List Message) (calls : Nat) (e : String)
    (h : llm msgs = .error e) :
    runLoop llm mcp (n + 1) msgs calls = .raised e (calls + 1) := by
  simp only [runLoop]
  rw [h]

/-- A response carrying no tool calls breaks out of the loop. -/
theorem runLoop_succ_no_tool_calls (llm : LlmClient) (mcp : McpClient)
    (n : Nat) (msgs : List Message) (calls : Nat) (resp : LlmResponse)
    (h : llm msgs = .ok resp) (he : resp.tool_calls = []) :
    runLoop llm mcp (n + 1) msgs calls = .noToolCalls (calls + 1) msgs := by
  simp only [runLoop]
  rw [h]
  dsimp only
  rw [he]
  rfl

/-- A round that completes without a submission advances to the next
round with the extended conversation. -/
theorem runLoop_succ_next (llm : LlmClient) (mcp : McpClient)
    (n : Nat) (msgs : List Message) (calls : Nat) (resp : LlmResponse)
    (m : List Message)
    (h : llm msgs = .ok resp) (hne : resp.tool_calls ≠ [])
    (hproc : processToolCalls mcp resp.tool_calls (msgs ++ [.assistant resp]) = .next m) :
    runLoop llm mcp (n + 1) msgs calls = runLoop llm mcp n m (calls + 1) := by
  obtain ⟨x, xs, hxx⟩ := List.exists_cons_of_ne_nil hne
  rw [hxx] at hproc
  simp only [runLoop]
  rw [h]
  dsimp only
  rw [hxx]
  simp only [List.isEmpty_cons, Bool.false_eq_true, if_false]
  rw [hproc]

/-- A round whose processing submits ends the loop with that suggestion. -/
theorem runLoop_succ_submitted (llm : LlmClient) (mcp : McpClient)
    (n : Nat) (msgs : List Message) (calls : Nat) (resp : LlmResponse)
    (v : ValidContent) (m : List Message)
    (h : llm msgs = .ok resp) (hne : resp.tool_calls ≠ [])
    (hproc : processToolCalls mcp resp.tool_calls (msgs ++ [.assistant resp]) = .submitted v m) :
    runLoop llm mcp (n + 1) msgs calls = .submitted v (calls + 1) m := by
  obtain ⟨x, xs, hxx⟩ := List.exists_cons_of_ne_nil hne
  rw [hxx] at hproc
  simp only [runLoop]
  rw [h]
  dsimp only
  rw [hxx]
  simp only [List.isEmpty_cons, Bool.false_eq_true, if_false]
  rw [hproc]

/-- A round whose processing raises ends the loop with that exception. -/
theorem runLoop_succ_raised (llm : LlmClient) (mcp : McpClient)
    (n : Nat) (msgs : List Message) (calls : Nat) (resp : LlmResponse)
    (e : String)
    (h : llm msgs = .ok resp) (hne : resp.tool_calls ≠ [])
    (hproc : processToolCalls mcp resp.tool_calls (msgs ++ [.assistant resp]) = .raised e) :
    runLoop llm mcp (n + 1) msgs calls = .raised e (calls + 1) := by
  obtain ⟨x, xs, hxx⟩ := List.exists_cons_of_ne_nil hne
  rw [hxx] at hproc
  simp only [runLoop]
  rw [h]
  dsimp only
  rw [hxx]
  simp only [List.isEmpty_cons, Bool.false_eq_true, if_false]
  rw [hproc]

/-- The loop never makes more reasoning calls than its remaining round
budget. -/
theorem runLoop_calls_le (llm : LlmClient) (mcp : McpClient) :
    ∀ n : Nat, ∀ msgs : List Message, ∀ calls : Nat,
      (runLoop llm mcp n msgs calls).llmCalls ≤ calls + n := by
  intro n
  induction n with
  | zero => intro msgs calls; simp [runLoop, LoopOutcome.llmCalls]
  | succ n ih =>
    intro msgs calls
    cases hllm : llm msgs with
    | error e =>
      rw [runLoop_succ_llm_error llm mcp n msgs calls e hllm]
      dsimp only [LoopOutcome.llmCalls]
      omega
    | ok resp =>
      by_cases hne : resp.tool_calls = []
      · rw [runLoop_succ_no_tool_calls llm mcp n msgs calls resp hllm hne]
        dsimp only [LoopOutcome.llmCalls]
        omega
      · cases hproc : processToolCalls mcp resp.tool_calls (msgs ++ [.assistant resp]) with
        | submitted v m =>
          rw [runLoop_succ_submitted llm mcp n msgs calls resp v m hllm hne hproc]
          dsimp only [LoopOutcome.llmCalls]
          omega
        | raised e =>
          rw [runLoop_succ_raised llm mcp n msgs calls resp e hllm hne hproc]
          dsimp only [LoopOutcome.llmCalls]
          omega
        | next m =>
          rw [runLoop_succ_next llm mcp n msgs calls resp m hllm hne hproc]
          have := ih m (calls + 1)
          omega

/-- Against an always-non-submitting reasoning client the loop spends
its whole budget, one reasoning call per round. -/
theorem runLoop_exhausts (llm : LlmClient) (mcp : McpClient)
    (h : AlwaysNonSubmitting llm mcp) :
    ∀ n : Nat, ∀ msgs : List Message, ∀ calls : Nat,
      (runLoop llm mcp n msgs calls).isBudgetSpent = true ∧
      (runLoop llm mcp n msgs calls).llmCalls = calls + n := by
  intro n
  induction n with
  | zero => intro msgs calls; exact ⟨rfl, rfl⟩
  | succ n ih =>
    intro msgs calls
    obtain ⟨resp, hresp, hne, hcalls⟩ := h msgs
    obtain ⟨m, hm⟩ := processToolCalls_completes mcp resp.tool_calls hcalls
      (msgs ++ [.assistant resp])
    rw [runLoop_succ_next llm mcp n msgs calls resp m hresp hne hm]
    obtain ⟨h1, h2⟩ := ih m (calls + 1)
    exact ⟨h1, by rw [h2]; omega⟩

/-- A reasoning-client construction failure yields no AI result. -/
theorem aiWorkflow_llm_error (env : AiEnvironment) (app : AppContext)
    (dc : DeploymentContext) (e : String) (h : env.llm_client = .error e) :
    aiWorkflow env app dc = none := by
  unfold aiWorkflow
  rw [h]

/-- A telemetry-client construction failure yields no AI result. -/
theorem aiWorkflow_mcp_error (env : AiEnvironment) (app : AppContext)
    (dc : DeploymentContext) (e : String) (h : env.mcp_client = .error e) :
    aiWorkflow env app dc = none := by
  unfold aiWorkflow
  rw [h]
  cases env.llm_client <;> rfl

/-- A loop ending in anything but a submission yields no AI result. -/
theorem aiWorkflow_not_submitted (env : AiEnvironment) (app : AppContext)
    (dc : DeploymentContext) (llm : LlmClient) (mcp : McpClient)
    (hl : env.llm_client = .ok llm) (hm : env.mcp_client = .ok mcp)
    (hns : ∀ v k m, runLoop llm mcp 5 (initialMessages app dc) 0 ≠ .submitted v k m) :
    aiWorkflow env app dc = none := by
  unfold aiWorkflow
  rw [hl, hm]
  dsimp only
  cases hr : runLoop llm mcp 5 (initialMessages app dc) 0 with
  | submitted v k m => exact absurd hr (hns v k m)
  | noToolCalls k m => rfl
  | budgetSpent k m => rfl
  | raised e k => rfl

/-- A submitted loop yields the validated suggestion tagged
`llm_validated`. -/
theorem aiWorkflow_submitted (env : AiEnvironment) (app : AppContext)
    (dc : DeploymentContext) (llm : LlmClient) (mcp : McpClient)
    (v : ValidContent) (k : Nat) (m : List Message)
    (hl : env.llm_client = .ok llm) (hm : env.mcp_client = .ok mcp)
    (hr : runLoop llm mcp 5 (initialMessages app dc) 0 = .submitted v k m) :
    aiWorkflow env app dc =
      some { suggestion := .fromLlm v, suggestion_source := "llm_validated" } := by
  unfold aiWorkflow
  rw [hl, hm]
  dsimp only
  rw [hr]

/-- When the AI path produces nothing, the coordinator returns the
precomputed static suggestion (whether the flag is on or off). -/
theorem getSuggestion_static_of_none (config : Config) (app : AppContext)
    (dc : DeploymentContext) (env : AiEnvironment) (s : StaticSuggestion)
    (hs : generateStaticSuggestion dc app.name config = .ok s)
    (hai : aiWorkflow env app dc = none) :
    getSuggestion config app dc env =
      .ok { suggestion := .fromStatic s, suggestion_source := "static" } := by
  unfold getSuggestion
  rw [hs]
  dsimp only
  by_cases hflag : config.features.enable_ai_shadow_analyst = true
  · rw [if_pos hflag, hai]
  · rw [if_neg hflag]

/-- When the AI path submits, the coordinator returns its result. -/
theorem getSuggestion_of_ai_some (config : Config) (app : AppContext)
    (dc : DeploymentContext) (env : AiEnvironment) (s : StaticSuggestion)
    (r : EngineResult)
    (hs : generateStaticSuggestion dc app.name config = .ok s)
    (hflag : config.features.enable_ai_shadow_analyst = true)
    (hai : aiWorkflow env app dc = some r) :
    getSuggestion config app dc env = .ok r := by
  unfold getSuggestion
  rw [hs]
  dsimp only
  rw [if_pos hflag, hai]

/-- With the feature flag off the coordinator returns the static
suggestion immediately. -/
theorem getSuggestion_flag_off (config : Config) (app : AppContext)
    (dc : DeploymentContext) (env : AiEnvironment) (s : StaticSuggestion)
    (hs : generateStaticSuggestion dc app.name config = .ok s)
    (hoff : config.features.enable_ai_shadow_analyst = false) :
    getSuggestion config app dc env =
      .ok { suggestion := .fromStatic s, suggestion_source := "static" } := by
  unfold getSuggestion
  rw [hs]
  dsimp only
  rw [hoff]
  simp only [Bool.false_eq_true, if_false]

/-- C2: the coordinator computes the static suggestion first and returns
it tagged `static` immediately when the AI flag is off; with the flag on,
a reasoning- or telemetry-client construction failure, or any loop run
that ends without a submission (exception, malformed output, no tool
calls, exhausted budget), falls back to that same precomputed static
suggestion tagged `static`; given the static step returned, the
coordinator never raises. -/
theorem c2_coordinator_static_fallback (config : Config) (app : AppContext)
    (dc : DeploymentContext) (env : AiEnvironment) (s : StaticSuggestion)
    (hs : generateStaticSuggestion dc app.name config = .ok s) :
    (config.features.enable_ai_shadow_analyst = false →
      getSuggestion config app dc env =
        .ok { suggestion := .fromStatic s, suggestion_source := "static" }) ∧
    (∀ e, env.llm_client = .error e →
      getSuggestion config app dc env =
        .ok { suggestion := .fromStatic s, suggestion_source := "static" }) ∧
    (∀ e, env.mcp_client = .error e →
      getSuggestion config app dc env =
        .ok { suggestion := .fromStatic s, suggestion_source := "static" }) ∧
    (∀ llm mcp, env.llm_client = .ok llm → env.mcp_client = .ok mcp →
      (∀ v k m, runLoop llm mcp 5 (initialMessages app dc) 0 ≠ .submitted v k m) →
      getSuggestion config app dc env =
        .ok { suggestion := .fromStatic s, suggestion_source := "static" }) ∧
    exceptOk (getSuggestion config app dc env) = true := by
  refine ⟨?_, ?_, ?_, ?_, ?_⟩
  · intro hoff
    exact getSuggestion_flag_off config app dc env s hs hoff
  · intro e he
    exact getSuggestion_static_of_none config app dc env s hs
      (aiWorkflow_llm_error env app dc e he)
  · intro e he
    exact getSuggestion_static_of_none config app dc env s hs
      (aiWorkflow_mcp_error env app dc e he)
  · intro llm mcp hl hm hns
    exact getSuggestion_static_of_none config app dc env s hs
      (aiWorkflow_not_submitted env app dc llm mcp hl hm hns)
  · by_cases hflag : config.features.enable_ai_shadow_analyst = true
    · cases hai : aiWorkflow env app dc with
      | some r =>
        rw [getSuggestion_of_ai_some config app dc env s r hs hflag hai]
        rfl
      | none =>
        rw [getSuggestion_static_of_none config app dc env s hs hai]
        rfl
    · rw [getSuggestion_flag_off config app dc env s hs
        (Bool.not_eq_true _ ▸ Bool.eq_false_iff.mpr hflag)]
      rfl

/-- C2 at concrete inputs: with the flag off and failing client
factories, the empty legacy static suggestion is returned tagged static. -/
theorem c2_coordinator_static_fallback_witness :
    getSuggestion {} {} {}
        { llm_client := .error "ValueError", mcp_client := .error "ValueError" } =
      .ok { suggestion := .fromStatic emptyLegacySuggestion,
            suggestion_source := "static" } :=
  (c2_coordinator_static_fallback {} {} {}
    { llm_client := .error "ValueError", mcp_client := .error "ValueError" }
    emptyLegacySuggestion (by decide)).1 rfl

/-- C3: the orchestration loop never makes more reasoning calls than its
budget of 5; against an always-non-submitting reasoning client it makes
exactly 5 calls, spends the budget, and the coordinator returns the
precomputed static suggestion (the model has no time-based state: the
count depends only on the responses, never on elapsed time). -/
theorem c3_five_round_budget :
    (∀ llm : LlmClient, ∀ mcp : McpClient, ∀ n : Nat,
      ∀ msgs : List Message, ∀ calls : Nat,
      (runLoop llm mcp n msgs calls).llmCalls ≤ calls + n) ∧
    (∀ llm : LlmClient, ∀ mcp : McpClient, AlwaysNonSubmitting llm mcp →
      ∀ msgs : List Message,
      (runLoop llm mcp 5 msgs 0).isBudgetSpent = true ∧
      (runLoop llm mcp 5 msgs 0).llmCalls = 5) ∧
    (∀ config : Config, ∀ app : AppContext, ∀ dc : DeploymentContext,
     ∀ env : AiEnvironment, ∀ llm mcp, ∀ s : StaticSuggestion,
      env.llm_client = .ok llm → env.mcp_client = .ok mcp →
      AlwaysNonSubmitting llm mcp →
      generateStaticSuggestion dc app.name config = .ok s →
      getSuggestion config app dc env =
        .ok { suggestion := .fromStatic s, suggestion_source := "static" } ∧
      (runLoop llm mcp 5 (initialMessages app dc) 0).llmCalls = 5) := by
  refine ⟨fun llm mcp => runLoop_calls_le llm mcp, ?_, ?_⟩
  · intro llm mcp h msgs
    exact runLoop_exhausts llm mcp h 5 msgs 0
  · intro config app dc env llm mcp s hl hm hans hs
    obtain ⟨hbs, hc⟩ := runLoop_exhausts llm mcp hans 5 (initialMessages app dc) 0
    have hns : ∀ v k m,
        runLoop llm mcp 5 (initialMessages app dc) 0 ≠ .submitted v k m := by
      intro v k m heq
      rw [heq] at hbs
      exact absurd hbs (by simp [LoopOutcome.isBudgetSpent])
    exact ⟨getSuggestion_static_of_none config app dc env s hs
      (aiWorkflow_not_submitted env app dc llm mcp hl hm hns), hc⟩

/-- C3 at concrete stubs: a reasoning client that always requests one
non-submission call against an attribute-less telemetry client makes
exactly 5 calls, spends the budget, and the static fallback is
returned. -/
theorem c3_five_round_budget_witness :
    (runLoop nonSubmittingLlmStub emptyMcpStub 5
        (initialMessages { name := some "payment-worker" }
          { environment := some (some "prod") }) 0).isBudgetSpent = true ∧
    (runLoop nonSubmittingLlmStub emptyMcpStub 5
        (initialMessages { name := some "payment-worker" }
          { environment := some (some "prod") }) 0).llmCalls = 5 ∧
    getSuggestion aiOnConfig { name := some "payment-worker" }
        { environment := some (some "prod") }
        { llm_client := .ok nonSubmittingLlmStub, mcp_client := .ok emptyMcpStub } =
      .ok { suggestion := .fromStatic emptyLegacySuggestion,
            suggestion_source := "static" } := by
  have hans : AlwaysNonSubmitting nonSubmittingLlmStub emptyMcpStub := by
    intro msgs
    refine ⟨_, rfl, by decide, ?_⟩
    intro tc htc
    rw [List.mem_singleton] at htc
    subst htc
    exact ⟨by decide, ⟨.query [("entity_id", "E-1")], rfl, Or.inl rfl⟩⟩
  have h2 := c3_five_round_budget.2.1 nonSubmittingLlmStub emptyMcpStub hans
    (initialMessages { name := some "payment-worker" }
      { environment := some (some "prod") })
  have h3 := c3_five_round_budget.2.2 aiOnConfig { name := some "payment-worker" }
    { environment := some (some "prod") }
    { llm_client := .ok nonSubmittingLlmStub, mcp_client := .ok emptyMcpStub }
    nonSubmittingLlmStub emptyMcpStub emptyLegacySuggestion rfl rfl hans (by decide)
  exact ⟨h2.1, h2.2, h3.1⟩

/-- C6: a schema-valid submission among the first round's tool calls (in
first position) ends the workflow at once: the validated suggestion is
returned tagged `llm_validated`, exactly one reasoning call is made, and
the remaining calls of the round are not processed (the conversation is
returned untouched by the submission handler). -/
theorem c6_first_round_submission :
    (∀ mcp : McpClient, ∀ cid : String, ∀ rest : List ToolCall,
     ∀ msgs : List Message, ∀ a : ToolArgs, ∀ v : ValidContent,
      validateArgs a = .ok v →
      processToolCalls mcp
        ({ id := cid, name := "submit_scaling_suggestion", arguments := .ok a } :: rest)
        msgs = .submitted v msgs) ∧
    (∀ config : Config, ∀ app : AppContext, ∀ dc : DeploymentContext,
     ∀ env : AiEnvironment, ∀ llm mcp, ∀ resp : LlmResponse, ∀ cid : String,
     ∀ rest : List ToolCall, ∀ a : ToolArgs, ∀ v : ValidContent,
     ∀ s : StaticSuggestion,
      config.features.enable_ai_shadow_analyst = true →
      env.llm_client = .ok llm → env.mcp_client = .ok mcp →
      generateStaticSuggestion dc app.name config = .ok s →
      llm (initialMessages app dc) = .ok resp →
      resp.tool_calls =
        { id := cid, name := "submit_scaling_suggestion", arguments := .ok a } :: rest →
      validateArgs a = .ok v →
      getSuggestion config app dc env =
        .ok { suggestion := .fromLlm v, suggestion_source := "llm_validated" } ∧
      (runLoop llm mcp 5 (initialMessages app dc) 0).llmCalls = 1) := by
  refine ⟨fun mcp cid rest msgs a v hv =>
    processToolCalls_cons_submit_ok mcp cid rest msgs a v hv, ?_⟩
  intro config app dc env llm mcp resp cid rest a v s hflag hl hm hs hresp htc hv
  have hproc : processToolCalls mcp resp.tool_calls
      (initialMessages app dc ++ [.assistant resp]) =
      .submitted v (initialMessages app dc ++ [.assistant resp]) := by
    rw [htc]
    exact processToolCalls_cons_submit_ok mcp cid rest _ a v hv
  have hr : runLoop llm mcp 5 (initialMessages app dc) 0 =
      .submitted v 1 (initialMessages app dc ++ [.assistant resp]) :=
    runLoop_succ_submitted llm mcp 4 (initialMessages app dc) 0 resp v
      (initialMessages app dc ++ [.assistant resp]) hresp
      (by rw [htc]; exact List.cons_ne_nil _ _) hproc
  refine ⟨?_, by rw [hr]; rfl⟩
  exact getSuggestion_of_ai_some config app dc env s _ hs hflag
    (aiWorkflow_submitted env app dc llm mcp v 1 _ hl hm hr)

/-- C6 at a concrete stub: a round-1 valid submission yields the
validated suggestion tagged `llm_validated` after exactly one call. -/
theorem c6_first_round_submission_witness :
    getSuggestion aiOnConfig {} {}
        { llm_client := .ok submittingLlmStub, mcp_client := .ok emptyMcpStub } =
      .ok { suggestion := .fromLlm validContentValue,
            suggestion_source := "llm_validated" } ∧
    (runLoop submittingLlmStub emptyMcpStub 5 (initialMessages {} {}) 0).llmCalls = 1 :=
  c6_first_round_submission.2 aiOnConfig {} {}
    { llm_client := .ok submittingLlmStub, mcp_client := .ok emptyMcpStub }
    submittingLlmStub emptyMcpStub
    { content := none,
      tool_calls := [{ id := "call-1", name := "submit_scaling_suggestion",
                       arguments := .ok (.submission validCandidate) }] }
    "call-1" [] (.submission validCandidate) validContentValue emptyLegacySuggestion
    rfl rfl rfl (by decide) rfl rfl (by decide)

/-- C8: a tool call naming an unregistered tool appends a tool-result
message carrying the text `Error: Tool not found.` keyed to that call id
and processing continues with the next call; a whole round of such calls
advances to the next round with one error message per call, instead of
aborting the workflow. -/
theorem c8_unknown_tool_recovers :
    (∀ mcp : McpClient, ∀ cid nameQ : String, ∀ rest : List ToolCall,
     ∀ msgs : List Message, ∀ a : ToolArgs,
      nameQ ≠ "submit_scaling_suggestion" → mcp nameQ = none →
      processToolCalls mcp ({ id := cid, name := nameQ, arguments := .ok a } :: rest) msgs =
        processToolCalls mcp rest
          (msgs ++ [.tool cid nameQ "Error: Tool not found."])) ∧
    (∀ llm : LlmClient, ∀ mcp : McpClient, ∀ n : Nat,
     ∀ msgs : List Message, ∀ calls : Nat, ∀ resp : LlmResponse,
      llm msgs = .ok resp → resp.tool_calls ≠ [] →
      (∀ tc ∈ resp.tool_calls, tc.name ≠ "submit_scaling_suggestion" ∧
        (∃ a, tc.arguments = .ok a) ∧ mcp tc.name = none) →
      runLoop llm mcp (n + 1) msgs calls =
        runLoop llm mcp n
          (msgs ++ [.assistant resp] ++
            resp.tool_calls.map (fun tc => .tool tc.id tc.name "Error: Tool not found."))
          (calls + 1)) := by
  refine ⟨fun mcp cid nameQ rest msgs a hname hf =>
    processToolCalls_cons_notfound mcp cid nameQ rest msgs a hname hf, ?_⟩
  intro llm mcp n msgs calls resp hresp hne hall
  exact runLoop_succ_next llm mcp n msgs calls resp _ hresp hne
    (processToolCalls_all_notfound mcp resp.tool_calls hall (msgs ++ [.assistant resp]))

/-- C8 at a concrete input: dispatching one unknown call against an
attribute-less client appends the error message and continues. -/
theorem c8_unknown_tool_recovers_witness :
    processToolCalls emptyMcpStub
        [{ id := "call-1", name := "get_performance_metrics",
           arguments := .ok (.query [("entity_id", "E-1")]) }] [] =
      processToolCalls emptyMcpStub []
        [.tool "call-1" "get_performance_metrics" "Error: Tool not found."] :=
  c8_unknown_tool_recovers.1 emptyMcpStub "call-1" "get_performance_metrics" []
    [] (.query [("entity_id", "E-1")]) (by decide) rfl

/-- C9: a submission whose arguments fail schema validation is not fed
back to the reasoning backend as a tool result: the validation exception
aborts the entire workflow (remaining calls of the round are skipped and
no further round runs) and the coordinator returns the precomputed
static suggestion tagged `static` — the abort-and-fall-back resolution. -/
theorem c9_validation_failure_aborts :
    (∀ mcp : McpClient, ∀ cid : String, ∀ rest : List ToolCall,
     ∀ msgs : List Message, ∀ a : ToolArgs, ∀ e : String,
      validateArgs a = .error e →
      processToolCalls mcp
        ({ id := cid, name := "submit_scaling_suggestion", arguments := .ok a } :: rest)
        msgs = .raised e) ∧
    (∀ llm : LlmClient, ∀ mcp : McpClient, ∀ n : Nat,
     ∀ msgs : List Message, ∀ calls : Nat, ∀ resp : LlmResponse, ∀ e : String,
      llm msgs = .ok resp → resp.tool_calls ≠ [] →
      processToolCalls mcp resp.tool_calls (msgs ++ [.assistant resp]) = .raised e →
      runLoop llm mcp (n + 1) msgs calls = .raised e (calls + 1)) ∧
    (∀ config : Config, ∀ app : AppContext, ∀ dc : DeploymentContext,
     ∀ env : AiEnvironment, ∀ llm mcp, ∀ s : StaticSuggestion,
     ∀ e : String, ∀ k : Nat,
      env.llm_client = .ok llm → env.mcp_client = .ok mcp →
      generateStaticSuggestion dc app.name config = .ok s →
      runLoop llm mcp 5 (initialMessages app dc) 0 = .raised e k →
      getSuggestion config app dc env =
        .ok { suggestion := .fromStatic s, suggestion_source := "static" }) := by
  refine ⟨fun mcp cid rest msgs a e hv =>
      processToolCalls_cons_submit_err mcp cid rest msgs a e hv,
    fun llm mcp n msgs calls resp e hresp hne hproc =>
      runLoop_succ_raised llm mcp n msgs calls resp e hresp hne hproc, ?_⟩
  intro config app dc env llm mcp s e k hl hm hs hr
  refine getSuggestion_static_of_none config app dc env s hs ?_
  refine aiWorkflow_not_submitted env app dc llm mcp hl hm ?_
  intro v k' m heq
  rw [heq] at hr
  exact LoopOutcome.noConfusion hr

/-- C9 at a concrete stub: an inverted-bounds submission aborts and the
static fallback is returned. -/
theorem c9_validation_failure_aborts_witness :
    getSuggestion aiOnConfig {} {}
        { llm_client := .ok badSubmittingLlmStub, mcp_client := .ok emptyMcpStub } =
      .ok { suggestion := .fromStatic emptyLegacySuggestion,
            suggestion_source := "static" } := by
  have hr : runLoop badSubmittingLlmStub emptyMcpStub 5 (initialMessages {} {}) 0 =
      .raised "ValidationError: max_replicas must be greater than or equal to min_replicas" 1 := by
    decide
  exact c9_validation_failure_aborts.2.2 aiOnConfig {} {}
    { llm_client := .ok badSubmittingLlmStub, mcp_client := .ok emptyMcpStub }
    badSubmittingLlmStub emptyMcpStub emptyLegacySuggestion _ 1
    rfl rfl (by decide) hr

/-- C10: the loop dispatches by attribute lookup on the telemetry
client, not by membership in the advertised tool catalog: any attribute
— including `get_scaling_context` and the private `_query_*` helpers,
which are not among the advertised query tools — is invoked when a call
names it, and the `Tool not found` error arises exactly for names that
are not attributes. -/
theorem c10_dispatch_by_attribute :
    (∀ mcp : McpClient, ∀ cid nameQ : String, ∀ rest : List ToolCall,
     ∀ msgs : List Message, ∀ a : ToolArgs,
     ∀ f : ToolArgs → Except String String, ∀ out : String,
      nameQ ≠ "submit_scaling_suggestion" →
      mcp nameQ = some f → f a = .ok out →
      processToolCalls mcp ({ id := cid, name := nameQ, arguments := .ok a } :: rest) msgs =
        processToolCalls mcp rest (msgs ++ [.tool cid nameQ out])) ∧
    ("get_scaling_context" ∈ dynatraceMcpMethodNames ∧
     "get_scaling_context" ∉ advertisedToolNames ∧
     "_query_slos" ∈ dynatraceMcpMethodNames ∧
     "_query_slos" ∉ advertisedToolNames) ∧
    (∀ handlers : String → ToolArgs → Except String String,
     ∀ cid : String, ∀ rest : List ToolCall, ∀ msgs : List Message,
     ∀ args : ToolArgs, ∀ out : String,
      handlers "get_scaling_context" args = .ok out →
      processToolCalls (dynatraceShapedMcp handlers)
        ({ id := cid, name := "get_scaling_context", arguments := .ok args } :: rest) msgs =
        processToolCalls (dynatraceShapedMcp handlers) rest
          (msgs ++ [.tool cid "get_scaling_context" out])) ∧
    (∀ handlers : String → ToolArgs → Except String String,
     ∀ cid : String, ∀ rest : List ToolCall, ∀ msgs : List Message,
     ∀ args : ToolArgs,
      processToolCalls (dynatraceShapedMcp handlers)
        ({ id := cid, name := "frobnicate_cluster", arguments := .ok args } :: rest) msgs =
        processToolCalls (dynatraceShapedMcp handlers) rest
          (msgs ++ [.tool cid "frobnicate_cluster" "Error: Tool not found."])) := by
  refine ⟨fun mcp cid nameQ rest msgs a f out hname hf hout =>
      processToolCalls_cons_found mcp cid nameQ rest msgs a f out hname hf hout,
    ⟨by decide, by decide, by decide, by decide⟩, ?_, ?_⟩
  · intro handlers cid rest msgs args out hout
    exact processToolCalls_cons_found (dynatraceShapedMcp handlers) cid
      "get_scaling_context" rest msgs args (handlers "get_scaling_context") out
      (by decide)
      (by unfold dynatraceShapedMcp; rw [if_pos (by decide)]) hout
  · intro handlers cid rest msgs args
    exact processToolCalls_cons_notfound (dynatraceShapedMcp handlers) cid
      "frobnicate_cluster" rest msgs args (by decide)
      (by unfold dynatraceShapedMcp; rw [if_neg (by decide)])

/-- C10 at a concrete input: a call naming `get_scaling_context` — not an
advertised query tool — is dispatched and its output appended. -/
theorem c10_dispatch_by_attribute_witness :
    processToolCalls (dynatraceShapedMcp (fun _ _ => .ok "scaling-context-output"))
        [{ id := "call-9", name := "get_scaling_context",
           arguments := .ok (.query [("entity_id", "E-1")]) }] [] =
      processToolCalls (dynatraceShapedMcp (fun _ _ => .ok "scaling-context-output")) []
        [.tool "call-9" "get_scaling_context" "scaling-context-output"] :=
  c10_dispatch_by_attribute.2.2.1 (fun _ _ => .ok "scaling-context-output")
    "call-9" [] [] (.query [("entity_id", "E-1")]) "scaling-context-output" rfl

end SreAgent
